import Mathlib

/-!
# now-playing editor: settings, templates and preview lifecycle

A shallow embedding of `src/web/script.js` (class `NowPlayingEditor`).

Modelling conventions
* The editor object and the parts of the browser it touches (localStorage,
  the timer pool, the preview container, the dropdown, the status line) form
  one explicit `State` record; every method is a function on that record.
  The page elements the code looks up are taken to exist.
* A thrown JavaScript exception is the `error` case of `Except JSError`, or
  the second component of a result when the state reached matters.
* An asynchronous method is given the outcome of its request as an argument
  and runs as one step; interleavings of pending requests are not modelled.
* JavaScript numbers with an integer value are integers; `parseInt` rounds
  what it reads to the nearest double and gives `NaN`, `Infinity` or `-0`
  where JavaScript does. Fractions are outside the model, and so is a `-0`
  or an `Infinity` written in a JSON text. Strings are sequences of code
  points.
* Markup assigned to `innerHTML` is parsed by the browser; the parser is an
  argument (`querySvg`, the first `svg` element found) and so is the
  serialiser behind a read of `innerHTML` (`serialize`).
* A stored text is represented by what `JSON.parse` makes of it (`Text`), and
  `JSON.stringify` by the value its output parses back to (`stringifyValue`).
* Objects are property lists in insertion order, read with `getProp`.
-/

namespace NowPlaying

/-! ## JavaScript values -/

/-- Values that `JSON.parse` can return. -/
inductive Json where
  | null
  | bool (b : Bool)
  | num (n : Int)
  | str (s : String)
  | arr (items : List Json)
  | obj (members : List (String × Json))

/-- Values held by the editor fields: a JSON value, or the `NaN`, the
`Infinity` (of either sign) or the `-0` that `parseInt` returns. `undefined`
is `none` at a property read. -/
inductive JSVal where
  | nan
  | infinity (negative : Bool)
  | negZero
  | json (j : Json)

/-- Property lists: the own enumerable properties of an object, or the
members of a JSON object text, in order. A name listed twice reads as its
last entry, as `JSON.parse` does with a repeated member name. -/
abbrev Props (α : Type) := List (String × α)

/-- Plain objects held in editor fields. -/
abbrev Obj := Props JSVal

/-- Exceptions raised by the modelled code. -/
inductive JSError where
  | SyntaxError (message : String)
  | TypeError (message : String)
  | RangeError (message : String)
  | SecurityError (message : String)
  | HttpError (message : String)
  | NetworkError (message : String)
  deriving DecidableEq

/-- The `message` property of an exception. -/
def JSError.message : JSError → String
  | .SyntaxError m => m
  | .TypeError m => m
  | .RangeError m => m
  | .SecurityError m => m
  | .HttpError m => m
  | .NetworkError m => m

/-- JavaScript truthiness (`ToBoolean`) of a JSON value. -/
def Json.truthy : Json → Bool
  | .null => false
  | .bool b => b
  | .num n => n != 0
  | .str s => s != ""
  | .arr _ => true
  | .obj _ => true

/-- JavaScript truthiness of a field value; `NaN` and `-0` are falsy,
`Infinity` is truthy. -/
def JSVal.truthy : JSVal → Bool
  | .nan => false
  | .infinity _ => true
  | .negZero => false
  | .json j => j.truthy

/-- Truthiness of a property read, `undefined` (absent) being falsy. -/
def truthyOpt : Option JSVal → Bool
  | none => false
  | some v => v.truthy

/-- The first value if there is one, otherwise the second. -/
def orElseOpt {α : Type} : Option α → Option α → Option α
  | some v, _ => some v
  | none, d => d

/-- Property read `o[k]`: `none` is `undefined` (own properties only; the
names read by the editor are not on `Object.prototype`). -/
def getProp {α : Type} : Props α → String → Option α
  | [], _ => none
  | (k, v) :: rest, key => orElseOpt (getProp rest key) (if k = key then some v else none)

/-- Creating or overwriting the own data property `key`. -/
def setProp {α : Type} (o : Props α) (key : String) (v : α) : Props α :=
  if (getProp o key).isSome then o.map (fun p => if p.1 = key then (p.1, v) else p)
  else o ++ [(key, v)]

/-- Copying the properties `src` onto `target` in order (object spread). -/
def assignProps {α : Type} (target src : Props α) : Props α :=
  src.foldl (fun acc p => setProp acc p.1 p.2) target

/-- Index keys "0", "1", ... paired with the items of a list. -/
def indexed {α : Type} (items : List α) : Props α :=
  ((List.range items.length).zip items).map (fun p => (toString p.1, p.2))

/-- A JSON value as a field value. -/
def ofJson (j : Json) : JSVal := .json j

/-- Own enumerable properties of a JSON value, as copied by `...value`:
objects give their members, arrays and strings their indexed items, other
values nothing. -/
def Json.ownProps : Json → Obj
  | .obj members => members.map (fun p => (p.1, ofJson p.2))
  | .arr items => indexed (items.map ofJson)
  | .str s => indexed (s.toList.map (fun c => ofJson (.str (String.singleton c))))
  | _ => []

/-- Property read `value.k` on a JSON value, for a name `k` that is neither
an index nor `length`: `TypeError` on `null`, `undefined` on a value without
that member. -/
def Json.getMember (j : Json) (k : String) : Except JSError (Option Json) :=
  match j with
  | .null => .error (.TypeError ("Cannot read properties of null (reading " ++ k ++ ")"))
  | .obj members => .ok (getProp members k)
  | _ => .ok none

/-- What `JSON.stringify` writes for a field value: `NaN` and `Infinity`
become `null`, `-0` becomes `0`. -/
def JSVal.toJson : JSVal → Json
  | .nan => .null
  | .infinity _ => .null
  | .negZero => .num 0
  | .json j => j

/-- The value that the text `JSON.stringify(o)` parses back to. -/
def stringifyValue (o : Obj) : Json :=
  .obj (o.map (fun p => (p.1, p.2.toJson)))

/-! ## parseInt -/

/-- White space skipped by `parseInt` (WhiteSpace and LineTerminator). -/
def isStrWhiteSpace (c : Char) : Bool :=
  let n := c.toNat
  n == 9 || n == 10 || n == 11 || n == 12 || n == 13 || n == 32 || n == 160
    || n == 0x1680 || (0x2000 ≤ n && n ≤ 0x200A) || n == 0x2028 || n == 0x2029
    || n == 0x202F || n == 0x205F || n == 0x3000 || n == 0xFEFF

/-- Value of a digit character in the given radix, if it is one. -/
def digitValue (radix : Nat) (c : Char) : Option Nat :=
  let n := c.toNat
  let v :=
    if 48 ≤ n ∧ n ≤ 57 then some (n - 48)
    else if 97 ≤ n ∧ n ≤ 122 then some (n - 97 + 10)
    else if 65 ≤ n ∧ n ≤ 90 then some (n - 65 + 10)
    else none
  match v with
  | some d => if d < radix then some d else none
  | none => none

/-- Reads the longest run of radix digits; `none` when there is no digit. -/
def parseDigits (radix : Nat) : List Char → Option Nat → Option Nat
  | [], acc => acc
  | c :: cs, acc =>
    match digitValue radix c with
    | some d => parseDigits radix cs (some (acc.getD 0 * radix + d))
    | none => acc

/-- Removes an optional sign, returning whether it was a minus. -/
def stripSign : List Char → Bool × List Char
  | '-' :: cs => (true, cs)
  | '+' :: cs => (false, cs)
  | cs => (false, cs)

/-- Removes a `0x` or `0X` marker, returning the radix to use. -/
def stripRadix : List Char → Nat × List Char
  | '0' :: 'x' :: cs => (16, cs)
  | '0' :: 'X' :: cs => (16, cs)
  | cs => (10, cs)

/-- The exponent of the double nearest to `n`: the least `e`, counted up from
the given one, with `n / 2 ^ e` (written as a shift) below `2 ^ 53`; the first
argument bounds the search. -/
def doubleShift (n : Nat) : Nat → Nat → Nat
  | 0, e => e
  | fuel + 1, e => if n >>> e < 2 ^ 53 then e else doubleShift n fuel (e + 1)

/-- The natural number `n` rounded to the nearest double (IEEE 754
round-to-nearest, ties to even, 53 bits of significand), given a bound on its
number of bits; `none` when the result is `Infinity`, that is when the
rounded value reaches `2 ^ 1024`. Shifts stand for the products and
quotients by powers of 2. -/
def roundToDouble (bits n : Nat) : Option Nat :=
  let e := doubleShift n bits 0
  if e = 0 then some n
  else
    let q := n >>> e
    let r := n - (q <<< e)
    let half := 1 <<< (e - 1)
    let q1 := if half < r ∨ (r = half ∧ q % 2 = 1) then q + 1 else q
    if q1 <<< e < 1 <<< 1024 then some (q1 <<< e) else none

/-- The numbers that `parseInt` can return: `NaN`, `Infinity` of either
sign, `-0`, or another double with an integer value. -/
inductive JSNumber where
  | nan
  | infinity (negative : Bool)
  | negZero
  | int (n : Int)
  deriving DecidableEq

/-- The call `parseInt(text)` with no radix argument. The integer read is
rounded to a double; a radix digit carries at most 4 bits. A minus sign
before a zero gives `-0`. The standard lets an implementation drop decimal
digits after the 20th before rounding; the model rounds the integer as
written. -/
def parseInt (text : String) : JSNumber :=
  let trimmed := text.toList.dropWhile isStrWhiteSpace
  let (negative, unsigned) := stripSign trimmed
  let (radix, digits) := stripRadix unsigned
  match parseDigits radix digits none with
  | none => .nan
  | some n =>
    match roundToDouble (4 * digits.length) n with
    | none => .infinity negative
    | some m =>
      if negative then (if m = 0 then .negZero else .int (-(m : Int))) else .int (m : Int)

/-- The field value made from a `parseInt` result. -/
def ofParseInt : JSNumber → JSVal
  | .nan => .nan
  | .infinity negative => .infinity negative
  | .negZero => .negZero
  | .int n => .json (.num n)

/-! ## Browser environment -/

/-- A stored text, seen through `JSON.parse`: the empty text, a non-empty
text that `JSON.parse` rejects, or a text that it reads as `v`. -/
inductive Text where
  | empty
  | malformed
  | json (v : Json)

/-- Truthiness of a text: only the empty text is falsy. -/
def Text.truthy : Text → Bool
  | .empty => false
  | _ => true

/-- The call `JSON.parse(text)`. -/
def JSON.parse : Text → Except JSError Json
  | .empty => .error (.SyntaxError "Unexpected end of JSON input")
  | .malformed => .error (.SyntaxError "Unexpected token in JSON")
  | .json v => .ok v

/-- The text written by `JSON.stringify(o)`. -/
def JSON.stringify (o : Obj) : Text := .json (stringifyValue o)

/-- Contents of `localStorage`. -/
abbrev Storage := Props Text

/-- The call `localStorage.getItem(key)`; `none` is `null`. -/
def getItem (st : Storage) (key : String) : Option Text := getProp st key

/-- The call `localStorage.setItem(key, text)`. -/
def setItem (st : Storage) (key : String) (t : Text) : Storage := setProp st key t

/-- The call `localStorage.removeItem(key)`. -/
def removeItem (st : Storage) (key : String) : Storage := st.filter (fun p => p.1 != key)

/-- What an armed timer does when it fires. `refresh` is the auto-refresh
interval calling `updatePreview`, its delay being the given
`refreshInterval` value times 1000; `statusClear` is the 3000 ms timeout of
`updateStatus`. -/
inductive TimerKind where
  | refresh (seconds : Option JSVal)
  | statusClear

/-- An entry of the timer pool shared by `setInterval` and `setTimeout`. -/
structure Timer where
  id : Nat
  kind : TimerKind

/-- Whether a timer is an auto-refresh interval. -/
def Timer.isRefresh (t : Timer) : Bool :=
  match t.kind with
  | .refresh _ => true
  | .statusClear => false

/-- The status line: `textContent` and `className` of `#statusText`. -/
structure Status where
  text : String
  className : String
  deriving DecidableEq

/-- An element found by `querySelector` in parsed markup, by its markup. -/
structure Element where
  outerHTML : String
  deriving DecidableEq

/-- Content of the preview container `#svgPreview`, by the way it was set:
the markup last assigned to its `innerHTML`, or the element appended to it
after it was emptied. -/
inductive Preview where
  | html (markup : String)
  | child (e : Element)
  deriving DecidableEq

/-- An `option` of the template dropdown. -/
structure SelectOption where
  value : String
  textContent : String
  selected : Bool
  deriving DecidableEq

/-- The editor object together with the browser state it reads and writes. -/
structure State where
  apiEndpoint : Json
  currentTemplate : String
  templates : Json
  autoRefreshInterval : Option Nat
  settings : Obj
  storage : Storage
  timers : List Timer
  nextTimerId : Nat
  gridOverlay : Bool
  settingsModalOpen : Bool
  status : Option Status
  preview : Preview
  svgEditor : String
  select : List SelectOption
  i18n : Option (String → String)

/-- Values of the settings form controls when `saveSettings` reads them. -/
structure Form where
  apiEndpoint : String
  refreshInterval : String
  autoRefresh : Bool
  showGrid : Bool

/-- The documented default endpoint. -/
def defaultEndpoint : Json := .str "http://localhost:8000"

/-- The settings object literal of the constructor and of `resetSettings`. -/
def defaultSettings : Obj :=
  [("autoRefresh", .json (.bool true)), ("refreshInterval", .json (.num 5)),
   ("showGrid", .json (.bool false))]

/-- The storage key of the settings blob. -/
def settingsKey : String := "nowPlayingSettings"

/-- Field initialisation of the constructor (lines 3 to 11), in a page whose
storage holds `storage`, with no timer armed yet. -/
def construct (storage : Storage) (i18n : Option (String → String)) : State :=
  { apiEndpoint := defaultEndpoint
    currentTemplate := "default"
    templates := .arr []
    autoRefreshInterval := none
    settings := defaultSettings
    storage := storage
    timers := []
    nextTimerId := 1
    gridOverlay := false
    settingsModalOpen := false
    status := none
    preview := .html ""
    svgEditor := ""
    select := []
    i18n := i18n }

/-- The expression `window.i18n ? window.i18n.t(key) : fallback`. -/
def translate (s : State) (key fallback : String) : String :=
  match s.i18n with
  | some t => t key
  | none => fallback

/-- Arms a timer with a fresh identifier and returns the identifier. -/
def setTimer (kind : TimerKind) (s : State) : Nat × State :=
  (s.nextTimerId,
   { s with timers := s.timers ++ [{ id := s.nextTimerId, kind := kind }],
            nextTimerId := s.nextTimerId + 1 })

/-- The call `clearInterval(id)`: disarms the timer with that identifier, if
any. -/
def clearInterval (id : Nat) (s : State) : State :=
  { s with timers := s.timers.filter (fun t => t.id != id) }

/-- Method `updateStatus(message, type)` (lines 342 to 354): shows the
message and arms the timeout that clears it. -/
def updateStatus (message : String) (type : String) (s : State) : State :=
  (setTimer .statusClear { s with status := some { text := message, className := type } }).2

/-- Number of armed auto-refresh interval timers. -/
def armedRefreshTimers (s : State) : Nat := (s.timers.filter Timer.isRefresh).length

/-- First part of `applySettings()` (lines 323 to 328): the grid class follows
the truthiness of `settings.showGrid`. -/
def applyGrid (s : State) : State :=
  { s with gridOverlay := truthyOpt (getProp s.settings "showGrid") }

/-- Second part of `applySettings()` (lines 331 to 333): a truthy timer
handle is passed to `clearInterval`; the field keeps its value. -/
def clearRefresh (s : State) : State :=
  match s.autoRefreshInterval with
  | some id => if id != 0 then clearInterval id s else s
  | none => s

/-- Third part of `applySettings()` (lines 335 to 339): when
`settings.autoRefresh` is truthy an interval is armed and its identifier
stored in the handle. -/
def armRefresh (s : State) : State :=
  if truthyOpt (getProp s.settings "autoRefresh") then
    let r := setTimer (.refresh (getProp s.settings "refreshInterval")) s
    { r.2 with autoRefreshInterval := some r.1 }
  else s

/-- Method `applySettings()` (lines 321 to 340). -/
def applySettings (s : State) : State :=
  armRefresh (clearRefresh (applyGrid s))

/-- The call `closeModal('settingsModal')`. -/
def closeSettingsModal (s : State) : State := { s with settingsModalOpen := false }

/-- First part of `saveSettings()` (lines 283 to 291): the four form controls
are read into the fields and the blob is written to storage. -/
def writeSettings (f : Form) (s : State) : State :=
  let s1 := { s with apiEndpoint := .str f.apiEndpoint }
  let interval := ofParseInt (parseInt f.refreshInterval)
  let s2 := { s1 with settings := setProp s1.settings "refreshInterval" interval }
  let s3 := { s2 with settings := setProp s2.settings "autoRefresh" (.json (.bool f.autoRefresh)) }
  let s4 := { s3 with settings := setProp s3.settings "showGrid" (.json (.bool f.showGrid)) }
  let blob := JSON.stringify (assignProps [("apiEndpoint", ofJson s4.apiEndpoint)] s4.settings)
  { s4 with storage := setItem s4.storage settingsKey blob }

/-- Method `saveSettings()` (lines 282 to 296). -/
def saveSettings (f : Form) (s : State) : State :=
  let s1 := closeSettingsModal (applySettings (writeSettings f s))
  updateStatus (translate s1 "settingsSaved" "Settings saved") "info" s1

/-- First part of `resetSettings()` (lines 299 to 306): the fields get their
defaults and the blob is removed from storage. -/
def restoreDefaults (s : State) : State :=
  let s1 := { s with apiEndpoint := defaultEndpoint, settings := defaultSettings }
  { s1 with storage := removeItem s1.storage settingsKey }

/-- Method `resetSettings()` (lines 298 to 309). -/
def resetSettings (s : State) : State :=
  let s1 := applySettings (restoreDefaults s)
  updateStatus (translate s1 "settingsReset" "Settings reset") "info" s1

/-- The expression `settings.apiEndpoint || 'http://localhost:8000'`. -/
def orDefaultEndpoint : Option Json → Json
  | some v => if v.truthy then v else defaultEndpoint
  | none => defaultEndpoint

/-- The body of `loadSettings()` (lines 311 to 319), given the outcome of its
storage read `localStorage.getItem('nowPlayingSettings')`: either the read
raises, or it returns the stored text or `null`. -/
def loadSettingsFrom (read : Except JSError (Option Text)) (s : State) : Except JSError State :=
  match read with
  | .error e => .error e
  | .ok saved =>
    match saved with
    | none => .ok (applySettings s)
    | some text =>
      if text.truthy then
        match JSON.parse text with
        | .error e => .error e
        | .ok settings =>
          match settings.getMember "apiEndpoint" with
          | .error e => .error e
          | .ok endpoint =>
            let s1 := { s with apiEndpoint := orDefaultEndpoint endpoint }
            let s2 := { s1 with settings := assignProps s1.settings settings.ownProps }
            .ok (applySettings s2)
      else .ok (applySettings s)

/-- Method `loadSettings()` (lines 311 to 319) with working storage. -/
def loadSettings (s : State) : Except JSError State :=
  loadSettingsFrom (.ok (getItem s.storage settingsKey)) s

/-- The settings operations a page session can perform on the editor. -/
inductive Op where
  | load
  | save (f : Form)
  | reset

/-- One operation; a `loadSettings` that raises leaves the state as it was. -/
def step (s : State) : Op → State
  | .load =>
    match loadSettings s with
    | .ok s1 => s1
    | .error _ => s
  | .save f => saveSettings f s
  | .reset => resetSettings s

/-- A sequence of operations, left to right. -/
def run (s : State) (ops : List Op) : State := ops.foldl step s

/-- The editor of a first page session on empty storage, after construction
and the `loadSettings` of `init`. -/
def freshEditor : State := step (construct [] none) .load

/-- The settings record of the specification, read off the editor. -/
structure Record where
  apiEndpoint : Json
  autoRefresh : Option JSVal
  refreshInterval : Option JSVal
  showGrid : Option JSVal

/-- The four settings fields of an editor state. -/
def State.record (s : State) : Record :=
  { apiEndpoint := s.apiEndpoint
    autoRefresh := getProp s.settings "autoRefresh"
    refreshInterval := getProp s.settings "refreshInterval"
    showGrid := getProp s.settings "showGrid" }

/-- The settings object after the three assignments of `saveSettings`. -/
def savedSettings (f : Form) (s : State) : Obj :=
  setProp (setProp (setProp s.settings "refreshInterval" (ofParseInt (parseInt f.refreshInterval)))
    "autoRefresh" (.json (.bool f.autoRefresh))) "showGrid" (.json (.bool f.showGrid))

/-- The documented default record. -/
def defaultRecord : Record :=
  { apiEndpoint := .str "http://localhost:8000"
    autoRefresh := some (.json (.bool true))
    refreshInterval := some (.json (.num 5))
    showGrid := some (.json (.bool false)) }

/-- A form with an empty endpoint and an interval text without digits. -/
def blankForm : Form :=
  { apiEndpoint := "", refreshInterval := "abc", autoRefresh := true, showGrid := false }

/-- A form as a user fills it in. -/
def sampleForm : Form :=
  { apiEndpoint := "http://example.org:9000", refreshInterval := "10", autoRefresh := false,
    showGrid := true }

/-- Members of the blob that `saveSettings` writes: the object literal
`{ apiEndpoint: this.apiEndpoint, ...this.settings }` as stringified. -/
def savedBlob (f : Form) (s : State) : Props Json :=
  (assignProps [("apiEndpoint", ofJson (.str f.apiEndpoint))] (savedSettings f s)).map
    (fun p => (p.1, p.2.toJson))

/-- The form of a first page session. -/
def firstForm : Form :=
  { apiEndpoint := "http://a.example:8000", refreshInterval := "10", autoRefresh := true,
    showGrid := false }

/-- The form of a second page session, changing only the endpoint. -/
def secondForm : Form :=
  { apiEndpoint := "http://b.example:8000", refreshInterval := "10", autoRefresh := true,
    showGrid := false }

/-- A first page session on empty storage: construction, the `loadSettings`
of `init`, then a save of `firstForm`. -/
def sessionOne : State := saveSettings firstForm (step (construct [] none) .load)

/-- The next page session, on the storage left by `sessionOne`:
construction, the `loadSettings` of `init`, then a save of `secondForm`. -/
def sessionTwo : State :=
  saveSettings secondForm (step (construct sessionOne.storage none) .load)

/-- Timer discipline of the editor: identifiers handed out are not 0, and
every armed auto-refresh interval is the one the handle
`autoRefreshInterval` names. -/
def TimerInv (s : State) : Prop :=
  0 < s.nextTimerId ∧
    ∀ t ∈ s.timers, t.isRefresh = true → s.autoRefreshInterval = some t.id ∧ t.id ≠ 0

/-! ## Network requests, templates and preview -/

/-- A response as the editor reads it: the `ok` flag, the status line, the
body text (`response.text()`) and what `response.json()` resolves to, `none`
when the body is not valid JSON and it rejects. -/
structure Response where
  ok : Bool
  status : Nat
  statusText : String
  text : String
  json : Option Json

/-- Outcome of `await fetch(url)`. -/
inductive FetchResult where
  | rejected (e : JSError)
  | resolved (r : Response)

/-- The built-in template names used when the list cannot be loaded. -/
def fallbackTemplates : Json :=
  .arr [.str "default", .str "modern-card", .str "glassmorphism", .str "minimalist"]

/-- The character class `\w` of the regular expression. -/
def isWordChar (c : Char) : Bool := c.isAlphanum || c == '_'

/-- The replacement `/\b\w/g` to upper case; the flag tells whether the
previous character was a word character. -/
def capitalizeWords : Bool → List Char → List Char
  | _, [] => []
  | prev, c :: cs =>
    (if isWordChar c && !prev then c.toUpper else c) :: capitalizeWords (isWordChar c) cs

/-- Method `formatTemplateName(template)` on a string (line 142). -/
def formatTemplateName (template : String) : String :=
  String.mk (capitalizeWords false (template.toList.map (fun c => if c = '-' then ' ' else c)))

/-- The test `this.templates.length === 0`; `TypeError` when the value is
`null`. -/
def lengthIsZero : Json → Except JSError Bool
  | .null => .error (.TypeError "Cannot read properties of null (reading length)")
  | .arr items => .ok items.isEmpty
  | .str s => .ok s.isEmpty
  | .obj members =>
    match getProp members "length" with
    | some (.num n) => .ok (n == 0)
    | _ => .ok false
  | _ => .ok false

/-- The `forEach` callback of `renderTemplateSelect` over the remaining
items: options appended so far, and the exception of the first item that is
not a string, on which `formatTemplateName` fails. -/
def renderOptions (current : String) : List Json → List SelectOption → List SelectOption × Option JSError
  | [], acc => (acc, none)
  | .str t :: rest, acc =>
    renderOptions current rest
      (acc ++ [{ value := t, textContent := formatTemplateName t, selected := t == current }])
  | .null :: _, acc => (acc, some (.TypeError "Cannot read properties of null (reading replace)"))
  | _ :: _, acc => (acc, some (.TypeError "template.replace is not a function"))

/-- The placeholder option shown for an empty list. -/
def noTemplatesOption : SelectOption :=
  { value := "", textContent := "No templates available", selected := false }

/-- Method `renderTemplateSelect()` (lines 114 to 139): the state it leaves and the
exception it raises, if any. -/
def renderTemplateSelect (s : State) : State × Option JSError :=
  match lengthIsZero s.templates with
  | .error e => (s, some e)
  | .ok true => ({ s with select := [noTemplatesOption] }, none)
  | .ok false =>
    match s.templates with
    | .arr items =>
      let r := renderOptions s.currentTemplate items []
      ({ s with select := r.1 }, r.2)
    | _ => ({ s with select := [] }, some (.TypeError "this.templates.forEach is not a function"))

/-- The text of `this.templates.length` in the success message. -/
def lengthText : Json → String
  | .arr items => toString items.length
  | .obj members =>
    match getProp members "length" with
    | some (.num n) => toString n
    | _ => "undefined"
  | _ => "undefined"

/-- The expression `data.templates || []`. -/
def orEmptyList : Option Json → Json
  | some v => if v.truthy then v else .arr []
  | none => .arr []

/-- End of the `try` block of `loadTemplates()` (lines 103 and 104): the
dropdown is rendered and, unless that raises, the success status shown. -/
def renderAndReport (s : State) : State × Option JSError :=
  let r := renderTemplateSelect s
  match r.2 with
  | some e => (r.1, some e)
  | none =>
    (updateStatus ("Successfully loaded " ++ lengthText r.1.templates ++ " templates")
      "info" r.1, none)

/-- The `try` block of `loadTemplates()` (lines 90 to 104): the state reached
and the exception that ends the block, if any. -/
def loadTemplatesTry (fetched : FetchResult) (s : State) : State × Option JSError :=
  match fetched with
  | .rejected e => (s, some e)
  | .resolved response =>
    if !response.ok then
      (s, some (.HttpError
        ("HTTP " ++ toString response.status ++ ": " ++ response.statusText)))
    else
      match response.json with
      | none => (s, some (.SyntaxError "Unexpected token in JSON"))
      | some data =>
        match data.getMember "templates" with
        | .error e => (s, some e)
        | .ok member => renderAndReport { s with templates := orEmptyList member }

/-- The status text of the `catch` block of `loadTemplates()`. -/
def templatesErrorText (s : State) : String :=
  translate s "errorLoadingTemplates" "Failed to load templates, using default templates"

/-- Method `loadTemplates()` (lines 88 to 112), given the outcome of its request. -/
def loadTemplates (fetched : FetchResult) (s : State) : State :=
  match loadTemplatesTry fetched s with
  | (s1, none) => s1
  | (s1, some _) =>
    let s2 := updateStatus (templatesErrorText s1) "error" s1
    (renderTemplateSelect { s2 with templates := fallbackTemplates }).1

/-- What the specification calls the degraded outcome of `loadTemplates`:
the template list is the built-in fallback and the status line shows the
load error with class `error`. -/
def usedFallback (before after : State) : Prop :=
  after.templates = fallbackTemplates
    ∧ after.status = some { text := templatesErrorText before, className := "error" }

/-- A successful response whose body is the JSON object `{}`. -/
def emptyObjectResponse : FetchResult :=
  .resolved { ok := true, status := 200, statusText := "OK", text := "{}", json := some (.obj []) }

/-! ## The record invariant of the specification -/

/-- Whether a JSON value is a string. -/
def Json.isString : Json → Bool
  | .str _ => true
  | _ => false

/-- Whether a JSON value is a boolean. -/
def Json.isBoolean : Json → Bool
  | .bool _ => true
  | _ => false

/-- Whether a JSON value is an integer strictly greater than 0. -/
def Json.isPositiveInt : Json → Bool
  | .num n => decide (0 < n)
  | _ => false

/-- Whether a field is present and its value passes the check. -/
def fieldIs (check : Json → Bool) : Option JSVal → Bool
  | some (.json j) => check j
  | _ => false

/-- The settings-record invariant of the specification: apiEndpoint is a
string, autoRefresh and showGrid are booleans, refreshInterval is an integer
strictly greater than 0. -/
def Record.wellTyped (r : Record) : Bool :=
  r.apiEndpoint.isString && fieldIs Json.isBoolean r.autoRefresh
    && fieldIs Json.isPositiveInt r.refreshInterval && fieldIs Json.isBoolean r.showGrid

/-- Whether a member of a blob is absent or passes the check. -/
def memberIs (check : Json → Bool) : Option Json → Bool
  | some j => check j
  | none => true

/-- Whether the stored settings text is absent, empty, or a JSON object
whose members apiEndpoint, autoRefresh, refreshInterval and showGrid, where
present, have the types of the record invariant. -/
def blobWellTyped : Option Text → Bool
  | none => true
  | some .empty => true
  | some (.json (.obj m)) =>
    memberIs Json.isString (getProp m "apiEndpoint")
      && memberIs Json.isBoolean (getProp m "autoRefresh")
      && memberIs Json.isPositiveInt (getProp m "refreshInterval")
      && memberIs Json.isBoolean (getProp m "showGrid")
  | _ => false

/-- Whether `parseInt` reads the interval text of a form as a finite number
strictly greater than 0 (its value is then an integer). -/
def Form.positiveInterval (f : Form) : Bool :=
  match parseInt f.refreshInterval with
  | .int n => decide (0 < n)
  | _ => false

/-- Operations whose form input, if any, has a positive interval. -/
def Op.admissible : Op → Bool
  | .save f => f.positiveInterval
  | _ => true

/-- The invariant kept by admissible operations: the record is well typed,
an `apiEndpoint` property of the settings object is a string, and the stored
blob is well typed. -/
def SettingsInv (s : State) : Prop :=
  s.record.wellTyped = true
    ∧ memberIs Json.isString ((getProp s.settings "apiEndpoint").map JSVal.toJson) = true
    ∧ blobWellTyped (getItem s.storage settingsKey) = true

/-- A form whose interval text is "0". -/
def zeroIntervalForm : Form :=
  { apiEndpoint := "http://localhost:8000", refreshInterval := "0", autoRefresh := true,
    showGrid := false }

/-! ## Preview refresh -/

/-- The markup of the inline error block of `updatePreview` (lines 212 to
230) for the given `error.message`. -/
def previewErrorBlock (message : String) : String :=
  "\n                <div class=\"error\" style=\"\n" ++
  "                    display: flex;\n" ++
  "                    align-items: center;\n" ++
  "                    justify-content: center;\n" ++
  "                    width: 100%;\n" ++
  "                    height: 120px;\n" ++
  "                    color: #f85149;\n" ++
  "                    font-size: 14px;\n" ++
  "                    background: transparent;\n" ++
  "                    text-align: center;\n" ++
  "                    border-radius: 8px;\n" ++
  "                \">\n" ++
  "                    <div>\n" ++
  "                        <p style=\"margin: 0 0 8px 0;\">" ++ "Failed to update preview" ++
  "</p>\n" ++
  "                        <small style=\"opacity: 0.7;\">" ++ message ++ "</small>\n" ++
  "                    </div>\n" ++
  "                </div>\n" ++
  "            "

/-- Method `updatePreview()` (lines 182 to 233), given the outcome of its request
and the markup parser: `querySvg text` is the first `svg` element found in
the parsed text, if any. -/
def updatePreview (fetched : FetchResult) (querySvg : String → Option Element) (s : State) :
    State :=
  let s1 := { s with preview := .html "<div class=\"loading\"></div>" }
  match fetched with
  | .rejected e =>
    updateStatus "Preview update failed" "error"
      { s1 with preview := .html (previewErrorBlock e.message) }
  | .resolved response =>
    let svgContent := response.text
    let s2 := { s1 with preview := .html "" }
    match querySvg svgContent with
    | some svgElement => updateStatus "Preview updated" "info" { s2 with preview := .child svgElement }
    | none => updateStatus "Preview updated" "info" { s2 with preview := .html svgContent }

/-- A parser that finds no `svg` element in any text. -/
def noSvg : String → Option Element := fun _ => none

/-- A response with status 500 and a plain-text body. -/
def serverErrorResponse : FetchResult :=
  .resolved { ok := false, status := 500, statusText := "Internal Server Error",
              text := "Internal Server Error", json := none }

/-! ## Custom templates -/

/-- The storage key of the custom template map. -/
def templatesKey : String := "customTemplates"

/-- The array index named by a property name, if it is a canonical index. -/
def parseIndex (name : String) : Option Nat :=
  let cs := name.toList
  if cs.all Char.isDigit && !cs.isEmpty && (cs.length == 1 || cs.head? != some '0') then
    let n := cs.foldl (fun acc c => acc * 10 + (c.toNat - 48)) 0
    if n < 4294967295 then some n else none
  else none

/-- Removes a `0x`, `0o` or `0b` marker of a numeric text, returning the
radix to use. -/
def stripBase : List Char → Nat × List Char
  | '0' :: 'x' :: cs => (16, cs)
  | '0' :: 'X' :: cs => (16, cs)
  | '0' :: 'o' :: cs => (8, cs)
  | '0' :: 'O' :: cs => (8, cs)
  | '0' :: 'b' :: cs => (2, cs)
  | '0' :: 'B' :: cs => (2, cs)
  | cs => (10, cs)

/-- The array length named by a text assigned to `length`: `ToNumber` of the
text when that is an integer below 2^32. Fraction and exponent notation are
outside the integer model of numbers and read as invalid. -/
def toArrayLength (text : String) : Option Nat :=
  let cs := (text.toList.dropWhile isStrWhiteSpace).reverse.dropWhile isStrWhiteSpace |>.reverse
  if cs.isEmpty then some 0
  else
    let r := stripBase cs
    let body := if r.1 == 10 then (stripSign cs).2 else r.2
    let negative := r.1 == 10 && (stripSign cs).1
    if body.isEmpty || !body.all (fun c => (digitValue r.1 c).isSome) then none
    else
      match parseDigits r.1 body none with
      | some n => if n < 4294967296 && (!negative || n == 0) then some n else none
      | none => none

/-- An array resized to the given length, new places being holes, which
`JSON.stringify` writes as `null`. -/
def resize (items : List Json) (n : Nat) : List Json :=
  items.take n ++ List.replicate (n - items.length) .null

/-- The strict-mode assignment `target[name] = value` of a string `value`,
as seen by a later `JSON.stringify(target)`. On `null` it raises. The name
`__proto__`, unless it is an own property, reaches the accessor of
`Object.prototype`, which ignores a string. On another primitive it raises.
On an array it sets an element or the length; other names are not
stringified. -/
def assignMember (target : Json) (name : String) (value : String) : Except JSError Json :=
  match target with
  | .null => .error (.TypeError ("Cannot set properties of null (setting " ++ name ++ ")"))
  | .obj members =>
    if name = "__proto__" ∧ (getProp members name).isNone then .ok (.obj members)
    else .ok (.obj (setProp members name (.str value)))
  | .arr items =>
    if name = "__proto__" then .ok (.arr items)
    else if name = "length" then
      match toArrayLength value with
      | some n => .ok (.arr (resize items n))
      | none => .error (.RangeError "Invalid array length")
    else
      match parseIndex name with
      | some i => .ok (.arr ((resize items (max items.length (i + 1))).set i (.str value)))
      | none => .ok (.arr items)
  | primitive =>
    if name = "__proto__" then .ok primitive
    else .error (.TypeError ("Cannot create property " ++ name))

/-- The expression `localStorage.getItem('customTemplates') || '{}'`. -/
def orEmptyObject : Option Text → Text
  | some t => if t.truthy then t else .json (.obj [])
  | none => .json (.obj [])

/-- Method `saveTemplate()` (lines 254 to 266), given the answer to the prompt:
`none` when it is cancelled. The markup is the text of the editor. -/
def saveTemplate (answer : Option String) (s : State) : Except JSError State :=
  match answer with
  | none => .ok s
  | some templateName =>
    if templateName = "" then .ok s
    else
      match JSON.parse (orEmptyObject (getItem s.storage templatesKey)) with
      | .error e => .error e
      | .ok savedTemplates =>
        match assignMember savedTemplates templateName s.svgEditor with
        | .error e => .error e
        | .ok updated =>
          .ok (updateStatus ("Template \"" ++ templateName ++ "\" saved") "info"
            { s with storage := setItem s.storage templatesKey (.json updated) })

/-- The custom template map held in storage, when it is a JSON object or
absent (then the empty map). -/
def customTemplates (s : State) : Option (Props Json) :=
  match getItem s.storage templatesKey with
  | none => some []
  | some (.json (.obj m)) => some m
  | _ => none

/-- An editor holding some markup, on empty storage. -/
def editingState : State := { construct [] none with svgEditor := "<svg></svg>" }

/-- Storage whose settings text is not valid JSON. -/
def malformedStorage : Storage := [("nowPlayingSettings", .malformed)]

/-- Storage whose settings blob holds an empty endpoint, as written by a save
with the endpoint control left empty. -/
def emptyEndpointStorage : Storage :=
  [("nowPlayingSettings", .json (.obj [("apiEndpoint", .str ""), ("autoRefresh", .bool true),
    ("refreshInterval", .num 5), ("showGrid", .bool false)]))]

/-- The value of a settings field after a load: the member of the blob when
it has one, otherwise the given default. -/
def mergedField (m : Props Json) (key : String) (fallback : Json) : Option JSVal :=
  match getProp m key with
  | some v => some (.json v)
  | none => some (.json fallback)

/-! ## Export and applying edited markup -/

/-- The markup read from `innerHTML` of the preview container. After a text
was assigned to `innerHTML` the container holds the nodes the browser parsed
from it, and the read gives their serialisation, `serialize text`, which need
not be the text assigned; after an element was appended to the emptied
container the read gives the markup of that element. -/
def Preview.innerHTML (serialize : String → String) : Preview → String
  | .html markup => serialize markup
  | .child e => e.outerHTML

/-- The escaping of one character of a text node by the HTML serialiser. -/
def escapeChar (c : Char) : String :=
  if c = '&' then "&amp;"
  else if c = '<' then "&lt;"
  else if c = '>' then "&gt;"
  else if c.toNat = 160 then "&nbsp;"
  else String.singleton c

/-- The serialisation of a text node by the HTML serialiser. It is what
`innerHTML` reads back after the assignment of a text that holds neither a
tag nor a character reference, which the parser turns into one text node. -/
def escapeText (text : String) : String :=
  String.join (text.toList.map escapeChar)

/-- A file offered to the user by clicking an anchor with a `download`
attribute: the value of that attribute and the blob behind the link. -/
structure Download where
  filename : String
  mimeType : String
  content : String
  deriving DecidableEq

/-- Effects of a method outside the editor state: a network request or a
download offered to the user. Methods that call `fetch` take the outcome of
the request as an argument instead. -/
inductive Effect where
  | fetch (url : String)
  | download (file : Download)
  deriving DecidableEq

/-- Whether an effect is a network request. -/
def Effect.isFetch : Effect → Bool
  | .fetch _ => true
  | .download _ => false

/-- Method `exportSvg()` (lines 240 to 252), given the serialiser behind the
read of `innerHTML`: the effects it has and the state it leaves. -/
def exportSvg (serialize : String → String) (s : State) : List Effect × State :=
  let svgContent := s.preview.innerHTML serialize
  let file : Download :=
    { filename := "now-playing-" ++ s.currentTemplate ++ ".svg", mimeType := "image/svg+xml",
      content := svgContent }
  ([.download file], updateStatus (translate s "svgExported" "SVG exported") "info" s)

/-- The markup of the error block of `applyCustomSvg` (lines 383 to 400) for
the given `error.message`. -/
def customSvgErrorBlock (message : String) : String :=
  "\n" ++
  "                <div style=\"\n" ++
  "                    display: flex;\n" ++
  "                    align-items: center;\n" ++
  "                    justify-content: center;\n" ++
  "                    width: 100%;\n" ++
  "                    height: 120px;\n" ++
  "                    color: #f85149;\n" ++
  "                    font-size: 14px;\n" ++
  "                    background: transparent;\n" ++
  "                    text-align: center;\n" ++
  "                \">\n" ++
  "                    <div>\n" ++
  "                        <p style=\"margin: 0;\">" ++ "SVG format error" ++
  "</p>\n" ++
  "                        <small style=\"opacity: 0.7;\">" ++ message ++
  "</small>\n" ++
  "                    </div>\n" ++
  "                </div>\n" ++
  "            "

/-- The `try` block of `applyCustomSvg()` (lines 367 to 381): the state
reached and the exception that ends the block, if any. With the parser given
as a function no statement of the block raises. -/
def applyCustomSvgTry (querySvg : String → Option Element) (s : State) : State × Option JSError :=
  let customSvg := s.svgEditor
  let s1 := { s with preview := .html "" }
  match querySvg customSvg with
  | some svgElement =>
    (updateStatus "Custom SVG applied" "info" { s1 with preview := .child svgElement }, none)
  | none => (updateStatus "Custom SVG applied" "info" { s1 with preview := .html customSvg }, none)

/-- Method `applyCustomSvg()` (lines 362 to 403), given the markup parser:
`querySvg text` is the first `svg` element found in the parsed text, if
any. -/
def applyCustomSvg (querySvg : String → Option Element) (s : State) : State :=
  match applyCustomSvgTry querySvg s with
  | (s1, none) => s1
  | (s1, some error) =>
    updateStatus "SVG format error" "error"
      { s1 with preview := .html (customSvgErrorBlock error.message) }

/-- A parser that finds an `svg` element exactly in the text `<svg></svg>`. -/
def onlyPlainSvg : String → Option Element :=
  fun text => if text = "<svg></svg>" then some { outerHTML := text } else none

/-- An editor showing the preview of the template `modern-card`. -/
def modernCardState : State :=
  let shown : Preview := .child { outerHTML := "<svg></svg>" }
  { construct [] none with currentTemplate := "modern-card", preview := shown }

/-- An editor whose text holds no markup at all. -/
def plainTextState : State := { construct [] none with svgEditor := "hello, world" }

/-- An editor whose text is `a & b`: no tag, no character reference. -/
def ampersandState : State := { construct [] none with svgEditor := "a & b" }

/-- Method `loadSettings()` (lines 311 to 319) with the state it leaves,
given the outcome of its storage read: the state reached when it returns, or,
when a statement raises, the state at that statement together with the
exception. The statements that can raise (the storage read, `JSON.parse`, the
read of `settings.apiEndpoint`) all come before the first assignment to a
field, and `applySettings` comes after them. -/
def loadSettingsRun (read : Except JSError (Option Text)) (s : State) : State × Option JSError :=
  match read with
  | .error e => (s, some e)
  | .ok saved =>
    match saved with
    | none => (applySettings s, none)
    | some text =>
      if text.truthy then
        match JSON.parse text with
        | .error e => (s, some e)
        | .ok settings =>
          match settings.getMember "apiEndpoint" with
          | .error e => (s, some e)
          | .ok endpoint =>
            let s1 := { s with apiEndpoint := orDefaultEndpoint endpoint }
            let s2 := { s1 with settings := assignProps s1.settings settings.ownProps }
            (applySettings s2, none)
      else (applySettings s, none)

/-- The result of a run as a value or an exception, dropping the state at
the raise. -/
def asExcept (r : State × Option JSError) : Except JSError State :=
  match r.2 with
  | none => .ok r.1
  | some e => .error e

/-! ## Property lists -/

@[simp] theorem orElseOpt_some {α : Type} (v : α) (d : Option α) : orElseOpt (some v) d = some v := rfl

@[simp] theorem orElseOpt_none {α : Type} (d : Option α) : orElseOpt none d = d := rfl

@[simp] theorem orElseOpt_none_right {α : Type} (x : Option α) : orElseOpt x none = x := by
  cases x <;> rfl

@[simp] theorem getProp_nil {α : Type} (key : String) : getProp ([] : Props α) key = none := rfl

@[simp] theorem getProp_cons {α : Type} (k : String) (v : α) (rest : Props α) (key : String) :
    getProp ((k, v) :: rest) key
      = orElseOpt (getProp rest key) (if k = key then some v else none) := rfl

theorem getProp_append_single {α : Type} (o : Props α) (k key : String) (v : α) :
    getProp (o ++ [(k, v)]) key = if k = key then some v else getProp o key := by
  induction o with
  | nil => simp
  | cons p rest ih =>
    obtain ⟨k1, v1⟩ := p
    simp only [List.cons_append, getProp_cons, ih]
    by_cases h : k = key <;> simp [h]

theorem getProp_map_overwrite {α : Type} (o : Props α) (k key : String) (v : α) :
    getProp (o.map (fun p => if p.1 = k then (p.1, v) else p)) key
      = if k = key then (getProp o key).map (fun _ => v) else getProp o key := by
  induction o with
  | nil => simp
  | cons p rest ih =>
    obtain ⟨k1, v1⟩ := p
    by_cases h1 : k1 = k
    · have e : (if (k1, v1).1 = k then ((k1, v1).1, v) else (k1, v1)) = (k1, v) := by simp [h1]
      rw [List.map_cons, e, getProp_cons, getProp_cons, ih]
      by_cases h : k = key
      · subst h
        subst h1
        cases getProp rest k1 <;> simp
      · have h2 : ¬ k1 = key := fun e => h (h1.symm.trans e)
        simp [h, h2]
    · have e : (if (k1, v1).1 = k then ((k1, v1).1, v) else (k1, v1)) = (k1, v1) := by simp [h1]
      rw [List.map_cons, e, getProp_cons, getProp_cons, ih]
      by_cases h : k = key
      · subst h
        cases getProp rest k <;> simp [h1]
      · simp [h]

theorem getProp_setProp {α : Type} (o : Props α) (k key : String) (v : α) :
    getProp (setProp o k v) key = if k = key then some v else getProp o key := by
  unfold setProp
  by_cases hs : (getProp o k).isSome = true
  · rw [if_pos hs, getProp_map_overwrite]
    by_cases h : k = key
    · subst h
      obtain ⟨w, hw⟩ := Option.isSome_iff_exists.mp hs
      simp [hw]
    · simp [h]
  · rw [if_neg hs, getProp_append_single]

theorem getProp_assignProps {α : Type} (b a : Props α) (key : String) :
    getProp (assignProps a b) key = orElseOpt (getProp b key) (getProp a key) := by
  induction b generalizing a with
  | nil => simp [assignProps]
  | cons p rest ih =>
    obtain ⟨k1, v1⟩ := p
    have h : assignProps a ((k1, v1) :: rest) = assignProps (setProp a k1 v1) rest := rfl
    rw [h, ih, getProp_setProp, getProp_cons]
    cases getProp rest key with
    | some w => simp
    | none => by_cases h1 : k1 = key <;> simp [h1]

theorem getProp_map_value {α β : Type} (g : α → β) (o : Props α) (key : String) :
    getProp (o.map (fun p => (p.1, g p.2))) key = (getProp o key).map g := by
  induction o with
  | nil => simp
  | cons p rest ih =>
    obtain ⟨k1, v1⟩ := p
    simp only [List.map_cons, getProp_cons, ih]
    cases getProp rest key with
    | some w => simp
    | none => by_cases h1 : k1 = key <;> simp [h1]

theorem clearRefresh_frame (s : State) :
    (clearRefresh s).apiEndpoint = s.apiEndpoint ∧ (clearRefresh s).settings = s.settings
      ∧ (clearRefresh s).storage = s.storage := by
  unfold clearRefresh
  cases s.autoRefreshInterval with
  | none => simp
  | some id => by_cases hid : (id != 0) = true <;> simp [hid, clearInterval]

theorem armRefresh_frame (s : State) :
    (armRefresh s).apiEndpoint = s.apiEndpoint ∧ (armRefresh s).settings = s.settings
      ∧ (armRefresh s).storage = s.storage := by
  unfold armRefresh
  by_cases h : truthyOpt (getProp s.settings "autoRefresh") = true <;> simp [h, setTimer]

theorem applySettings_frame (s : State) :
    (applySettings s).apiEndpoint = s.apiEndpoint ∧ (applySettings s).settings = s.settings
      ∧ (applySettings s).storage = s.storage := by
  unfold applySettings
  obtain ⟨a1, a2, a3⟩ := armRefresh_frame (clearRefresh (applyGrid s))
  obtain ⟨c1, c2, c3⟩ := clearRefresh_frame (applyGrid s)
  exact ⟨a1.trans c1, a2.trans c2, a3.trans c3⟩

theorem updateStatus_frame (m c : String) (s : State) :
    (updateStatus m c s).apiEndpoint = s.apiEndpoint ∧ (updateStatus m c s).settings = s.settings
      ∧ (updateStatus m c s).storage = s.storage := by
  simp [updateStatus, setTimer]

theorem saveSettings_fields (f : Form) (s : State) :
    (saveSettings f s).apiEndpoint = .str f.apiEndpoint
      ∧ (saveSettings f s).settings = savedSettings f s
      ∧ (saveSettings f s).storage = setItem s.storage settingsKey
          (JSON.stringify (assignProps [("apiEndpoint", ofJson (.str f.apiEndpoint))]
            (savedSettings f s))) := by
  unfold saveSettings
  simp only [closeSettingsModal]
  refine ⟨?_, ?_, ?_⟩
  · rw [(updateStatus_frame _ _ _).1]
    exact (applySettings_frame _).1
  · rw [(updateStatus_frame _ _ _).2.1]
    exact (applySettings_frame _).2.1
  · rw [(updateStatus_frame _ _ _).2.2]
    exact (applySettings_frame _).2.2

theorem getItem_setItem (st : Storage) (key : String) (t : Text) :
    getItem (setItem st key t) key = some t := by
  simp [getItem, setItem, getProp_setProp]

theorem getItem_removeItem (st : Storage) (key : String) :
    getItem (removeItem st key) key = none := by
  unfold getItem removeItem
  induction st with
  | nil => simp
  | cons p rest ih =>
    obtain ⟨k1, v1⟩ := p
    by_cases h : k1 = key
    · simp [List.filter_cons, h, ih]
    · simp [List.filter_cons, h, ih]

theorem loadSettings_absent (s : State) (h : getItem s.storage settingsKey = none) :
    loadSettings s = .ok (applySettings s) := by
  simp [loadSettings, loadSettingsFrom, h]

theorem loadSettings_object (s : State) (m : Props Json)
    (h : getItem s.storage settingsKey = some (.json (.obj m))) :
    ∃ s1, loadSettings s = .ok s1
      ∧ s1.apiEndpoint = orDefaultEndpoint (getProp m "apiEndpoint")
      ∧ s1.settings = assignProps s.settings (Json.ownProps (.obj m))
      ∧ s1.storage = s.storage := by
  let e := orDefaultEndpoint (getProp m "apiEndpoint")
  let o := assignProps s.settings (Json.ownProps (.obj m))
  refine ⟨applySettings { s with apiEndpoint := e, settings := o }, ?_, ?_⟩
  · simp [loadSettings, loadSettingsFrom, h, Text.truthy, JSON.parse, Json.getMember]
  · exact applySettings_frame _

theorem savedSettings_get (f : Form) (s : State) (key : String) :
    getProp (savedSettings f s) key
      = if "showGrid" = key then some (.json (.bool f.showGrid))
        else if "autoRefresh" = key then some (.json (.bool f.autoRefresh))
        else if "refreshInterval" = key then some (ofParseInt (parseInt f.refreshInterval))
        else getProp s.settings key := by
  simp [savedSettings, getProp_setProp]

theorem saveSettings_storage (f : Form) (s : State) :
    getItem (saveSettings f s).storage settingsKey = some (.json (.obj (savedBlob f s))) := by
  rw [(saveSettings_fields f s).2.2, getItem_setItem]
  rfl

/-- The settings blob written by `saveSettings`, member by member: the three
settings are the values just entered (`NaN` written as `null`); the
`apiEndpoint` member is the `apiEndpoint` property that the settings object
already carries, if it has one, and only otherwise the endpoint entered. -/
theorem savedBlob_members (f : Form) (s : State) :
    getProp (savedBlob f s) "autoRefresh" = some (.bool f.autoRefresh)
      ∧ getProp (savedBlob f s) "showGrid" = some (.bool f.showGrid)
      ∧ getProp (savedBlob f s) "refreshInterval"
          = some (ofParseInt (parseInt f.refreshInterval)).toJson
      ∧ getProp (savedBlob f s) "apiEndpoint"
          = some (match getProp s.settings "apiEndpoint" with
                  | some v => v.toJson
                  | none => .str f.apiEndpoint) := by
  unfold savedBlob
  refine ⟨?_, ?_, ?_, ?_⟩
  · simp only [getProp_map_value, getProp_assignProps, savedSettings_get]
    simp [JSVal.toJson]
  · simp only [getProp_map_value, getProp_assignProps, savedSettings_get]
    simp [JSVal.toJson]
  · simp [getProp_map_value, getProp_assignProps, savedSettings_get]
  · simp only [getProp_map_value, getProp_assignProps, savedSettings_get]
    cases getProp s.settings "apiEndpoint" <;> simp [ofJson, JSVal.toJson]

theorem ownProps_obj_get (m : Props Json) (key : String) :
    getProp (Json.ownProps (.obj m)) key = (getProp m key).map ofJson := by
  simp [Json.ownProps, getProp_map_value]

/-! ## parseInt on long digit texts -/

/-- The value of `parseInt` is a double: 2^53 + 1 is read as 2^53 (a tie,
rounded to the even significand), 2^53 + 3 as 2^53 + 4, and a signed zero as
`-0`. -/
theorem parseInt_rounds :
    parseInt "9007199254740993" = .int 9007199254740992
      ∧ parseInt "9007199254740995" = .int 9007199254740996
      ∧ parseInt "-9007199254740995" = .int (-9007199254740996)
      ∧ parseInt "-0" = .negZero := by
  decide

set_option maxRecDepth 100000 in
/-- A text of 400 digits is read as `Infinity`, which `saveSettings` keeps in
the settings object and `JSON.stringify` writes as `null`. -/
theorem parseInt_overflows :
    parseInt (String.mk (List.replicate 400 '9')) = .infinity false
      ∧ (ofParseInt (parseInt (String.mk (List.replicate 400 '9')))).toJson = .null := by
  have h : parseInt (String.mk (List.replicate 400 '9')) = .infinity false := by decide
  exact ⟨h, by rw [h]; rfl⟩

/-! ## C1: save then load -/

/-- C1 (as amended): for every editor state whose settings object carries no
`apiEndpoint` property of its own, or carries the endpoint being entered, and
for every form input whose endpoint text is not empty and whose interval text
`parseInt` reads as a finite number other than `-0` (so neither NaN nor
Infinity), `loadSettings` after `saveSettings` returns and leaves apiEndpoint,
autoRefresh, refreshInterval and showGrid equal to what they were right after
`saveSettings`. -/
theorem saveSettings_loadSettings_roundtrip (s : State) (f : Form) (n : Int)
    (hEndpoint : f.apiEndpoint ≠ "")
    (hInterval : parseInt f.refreshInterval = .int n)
    (hOwn : getProp s.settings "apiEndpoint" = none
      ∨ getProp s.settings "apiEndpoint" = some (.json (.str f.apiEndpoint))) :
    ∃ s1, loadSettings (saveSettings f s) = .ok s1
      ∧ s1.record = (saveSettings f s).record := by
  obtain ⟨hA, hG, hI, hE⟩ := savedBlob_members f s
  have hE2 : getProp (savedBlob f s) "apiEndpoint" = some (.str f.apiEndpoint) := by
    rw [hE]
    rcases hOwn with h | h <;> simp [h, JSVal.toJson]
  obtain ⟨s1, hLoad, l1, l2, _⟩ := loadSettings_object _ _ (saveSettings_storage f s)
  obtain ⟨f1, f2, _⟩ := saveSettings_fields f s
  refine ⟨s1, hLoad, ?_⟩
  simp only [State.record, l1, l2, f1, f2, getProp_assignProps, ownProps_obj_get, hA, hG, hI, hE2,
    savedSettings_get, hInterval]
  simp [orDefaultEndpoint, Json.truthy, hEndpoint, ofJson, ofParseInt, JSVal.toJson]

/-- Witness for C1: the constructed editor and a filled-in form. -/
theorem saveSettings_loadSettings_roundtrip_witness :
    sampleForm.apiEndpoint ≠ ""
      ∧ parseInt sampleForm.refreshInterval = .int 10
      ∧ getProp (construct [] none).settings "apiEndpoint" = none
      ∧ ∃ s1, loadSettings (saveSettings sampleForm (construct [] none)) = .ok s1
          ∧ s1.record = (saveSettings sampleForm (construct [] none)).record :=
  ⟨by decide, by decide, rfl,
    saveSettings_loadSettings_roundtrip (construct [] none) sampleForm 10 (by decide) (by decide)
      (Or.inl rfl)⟩

/-- C1 as stated fails: on the editor of a first page session, saving an
empty endpoint and an interval text without digits and then loading turns the
endpoint "" into the default endpoint and the interval NaN into null. -/
theorem saveSettings_loadSettings_not_roundtrip :
    ∃ s1, loadSettings (saveSettings blankForm freshEditor) = .ok s1
      ∧ (saveSettings blankForm freshEditor).record.apiEndpoint = .str ""
      ∧ s1.record.apiEndpoint = .str "http://localhost:8000"
      ∧ (saveSettings blankForm freshEditor).record.refreshInterval = some .nan
      ∧ s1.record.refreshInterval = some (.json .null)
      ∧ s1.record ≠ (saveSettings blankForm freshEditor).record := by
  refine ⟨_, rfl, rfl, rfl, rfl, rfl, ?_⟩
  intro h
  have h2 := congrArg Record.apiEndpoint h
  revert h2
  show Json.str "http://localhost:8000" ≠ Json.str ""
  simp

/-! ## C2: reset -/

theorem resetSettings_fields (s : State) :
    (resetSettings s).apiEndpoint = defaultEndpoint
      ∧ (resetSettings s).settings = defaultSettings
      ∧ getItem (resetSettings s).storage settingsKey = none := by
  unfold resetSettings
  simp only []
  refine ⟨?_, ?_, ?_⟩
  · rw [(updateStatus_frame _ _ _).1, (applySettings_frame _).1]
    rfl
  · rw [(updateStatus_frame _ _ _).2.1, (applySettings_frame _).2.1]
    rfl
  · rw [(updateStatus_frame _ _ _).2.2, (applySettings_frame _).2.2]
    exact getItem_removeItem _ _

/-- C2: for every editor state, after `resetSettings` the endpoint and the
settings object are exactly the defaults (apiEndpoint
"http://localhost:8000", autoRefresh true, refreshInterval 5, showGrid false),
the key nowPlayingSettings is absent from storage, and a following
`loadSettings` returns and again yields the default record. -/
theorem resetSettings_default (s : State) :
    (resetSettings s).apiEndpoint = .str "http://localhost:8000"
      ∧ (resetSettings s).settings
          = [("autoRefresh", .json (.bool true)), ("refreshInterval", .json (.num 5)),
             ("showGrid", .json (.bool false))]
      ∧ (resetSettings s).record = defaultRecord
      ∧ getItem (resetSettings s).storage settingsKey = none
      ∧ ∃ s1, loadSettings (resetSettings s) = .ok s1 ∧ s1.record = defaultRecord := by
  obtain ⟨hE, hS, hK⟩ := resetSettings_fields s
  have hR : (resetSettings s).record = defaultRecord := by
    simp only [State.record, hE, hS]
    rfl
  refine ⟨hE, hS, hR, hK, _, loadSettings_absent _ hK, ?_⟩
  obtain ⟨a1, a2, _⟩ := applySettings_frame (resetSettings s)
  simp only [State.record, a1, a2, hE, hS]
  rfl

/-! ## C3: the blob written by a save -/

/-- C3 fails on the code: in a page session that loaded a blob saved with
endpoint "http://a.example:8000", saving the endpoint "http://b.example:8000"
sets the field `apiEndpoint` to the new endpoint but writes a blob whose
`apiEndpoint` member is still the old one, so the next `loadSettings` brings
the old endpoint back. -/
theorem saveSettings_keeps_stale_endpoint :
    sessionTwo.apiEndpoint = .str "http://b.example:8000"
      ∧ (∃ m, getItem sessionTwo.storage settingsKey = some (.json (.obj m))
          ∧ getProp m "apiEndpoint" = some (.str "http://a.example:8000"))
      ∧ ∃ s1, loadSettings sessionTwo = .ok s1
          ∧ s1.apiEndpoint = .str "http://a.example:8000" :=
  ⟨rfl, ⟨_, rfl, rfl⟩, ⟨_, rfl, rfl⟩⟩

/-! ## C5: timer hygiene -/

theorem timerInv_construct (st : Storage) (i18n : Option (String → String)) :
    TimerInv (construct st i18n) := by
  refine ⟨Nat.one_pos, ?_⟩
  intro t ht
  simp [construct] at ht

theorem timerInv_of_same (s s1 : State) (h : TimerInv s) (ht : s1.timers = s.timers)
    (hn : s1.nextTimerId = s.nextTimerId) (hh : s1.autoRefreshInterval = s.autoRefreshInterval) :
    TimerInv s1 := by
  unfold TimerInv
  rw [ht, hn, hh]
  exact h

theorem clearRefresh_no_refresh (s : State) (h : TimerInv s) :
    (∀ t ∈ (clearRefresh s).timers, t.isRefresh = false)
      ∧ (clearRefresh s).nextTimerId = s.nextTimerId
      ∧ (clearRefresh s).settings = s.settings := by
  obtain ⟨_, hT⟩ := h
  unfold clearRefresh
  cases hh : s.autoRefreshInterval with
  | none =>
    refine ⟨?_, rfl, rfl⟩
    intro t ht
    cases hr : t.isRefresh with
    | false => rfl
    | true =>
      have := (hT t ht hr).1
      rw [hh] at this
      cases this
  | some id =>
    by_cases hid : (id != 0) = true
    · simp only [hid, if_true]
      refine ⟨?_, rfl, rfl⟩
      intro t ht
      simp only [clearInterval, List.mem_filter] at ht
      cases hr : t.isRefresh with
      | false => rfl
      | true =>
        have h1 := (hT t ht.1 hr).1
        rw [hh] at h1
        have h2 : id = t.id := Option.some.inj h1
        have h3 := ht.2
        rw [h2] at h3
        simp at h3
    · simp only [hid]
      refine ⟨?_, rfl, rfl⟩
      intro t ht
      cases hr : t.isRefresh with
      | false => rfl
      | true =>
        obtain ⟨h1, h2⟩ := hT t ht hr
        rw [hh] at h1
        have h3 : id = t.id := Option.some.inj h1
        rw [← h3] at h2
        simp [h2] at hid

theorem filter_isRefresh_nil (ts : List Timer) (h : ∀ t ∈ ts, t.isRefresh = false) :
    ts.filter Timer.isRefresh = [] := by
  rw [List.filter_eq_nil_iff]
  intro t ht
  simp [h t ht]

theorem applySettings_timers (s : State) (h : TimerInv s) :
    TimerInv (applySettings s)
      ∧ armedRefreshTimers (applySettings s)
          = (if truthyOpt (getProp s.settings "autoRefresh") = true then 1 else 0)
      ∧ (applySettings s).settings = s.settings := by
  have hg : TimerInv (applyGrid s) := timerInv_of_same s _ h rfl rfl rfl
  obtain ⟨hNo, hNext, hSet⟩ := clearRefresh_no_refresh (applyGrid s) hg
  have hPos : 0 < (clearRefresh (applyGrid s)).nextTimerId := by
    rw [hNext]
    exact h.1
  have hSet2 : (clearRefresh (applyGrid s)).settings = s.settings := hSet
  unfold applySettings armRefresh
  rw [hSet2]
  by_cases ha : truthyOpt (getProp s.settings "autoRefresh") = true
  · simp only [ha, if_true]
    refine ⟨⟨?_, ?_⟩, ?_, hSet2⟩
    · simp [setTimer]
    · intro t ht
      simp only [setTimer, List.mem_append, List.mem_singleton] at ht
      intro hr
      rcases ht with ht | ht
      · rw [hNo t ht] at hr
        cases hr
      · subst ht
        exact ⟨rfl, Nat.pos_iff_ne_zero.mp hPos⟩
    · simp only [armedRefreshTimers, setTimer, List.filter_append,
        filter_isRefresh_nil _ hNo]
      rfl
  · simp only [ha]
    refine ⟨⟨hPos, ?_⟩, ?_, hSet2⟩
    · intro t ht hr
      rw [hNo t ht] at hr
      cases hr
    · simp [armedRefreshTimers, filter_isRefresh_nil _ hNo]

theorem updateStatus_timers (m c : String) (s : State) (h : TimerInv s) :
    TimerInv (updateStatus m c s)
      ∧ armedRefreshTimers (updateStatus m c s) = armedRefreshTimers s := by
  obtain ⟨hPos, hT⟩ := h
  refine ⟨⟨?_, ?_⟩, ?_⟩
  · simp [updateStatus, setTimer]
  · intro t ht hr
    simp only [updateStatus, setTimer, List.mem_append, List.mem_singleton] at ht
    rcases ht with ht | ht
    · exact hT t ht hr
    · subst ht
      cases hr
  · simp [armedRefreshTimers, updateStatus, setTimer, List.filter_append, Timer.isRefresh]

theorem loadSettings_shape (s s1 : State) (h : loadSettings s = .ok s1) :
    ∃ e o, s1 = applySettings { s with apiEndpoint := e, settings := o } := by
  unfold loadSettings loadSettingsFrom at h
  simp only [] at h
  split at h
  · exact ⟨s.apiEndpoint, s.settings, (Except.ok.inj h).symm⟩
  · split at h
    · split at h
      · cases h
      · split at h
        · cases h
        · exact ⟨_, _, (Except.ok.inj h).symm⟩
    · exact ⟨s.apiEndpoint, s.settings, (Except.ok.inj h).symm⟩

theorem loadSettings_timers (s s1 : State) (hs : TimerInv s) (h : loadSettings s = .ok s1) :
    TimerInv s1
      ∧ armedRefreshTimers s1
          = (if truthyOpt (getProp s1.settings "autoRefresh") = true then 1 else 0) := by
  obtain ⟨e, o, rfl⟩ := loadSettings_shape s s1 h
  have hi : TimerInv { s with apiEndpoint := e, settings := o } :=
    timerInv_of_same s _ hs rfl rfl rfl
  obtain ⟨h1, h2, h3⟩ := applySettings_timers _ hi
  exact ⟨h1, by rw [h2, h3]⟩

theorem saveSettings_timers (f : Form) (s : State) (hs : TimerInv s) :
    TimerInv (saveSettings f s)
      ∧ armedRefreshTimers (saveSettings f s) = (if f.autoRefresh = true then 1 else 0) := by
  have hi : TimerInv (writeSettings f s) := timerInv_of_same s _ hs rfl rfl rfl
  obtain ⟨h1, h2, _⟩ := applySettings_timers _ hi
  have hc : TimerInv (closeSettingsModal (applySettings (writeSettings f s))) :=
    timerInv_of_same _ _ h1 rfl rfl rfl
  obtain ⟨u1, u2⟩ := updateStatus_timers
    (translate (closeSettingsModal (applySettings (writeSettings f s)))
      "settingsSaved" "Settings saved") "info" _ hc
  refine ⟨u1, ?_⟩
  have hA : getProp (writeSettings f s).settings "autoRefresh"
      = some (.json (.bool f.autoRefresh)) := by
    show getProp (savedSettings f s) "autoRefresh" = _
    simp [savedSettings_get]
  have h3 : armedRefreshTimers (applySettings (writeSettings f s))
      = (if f.autoRefresh = true then 1 else 0) := by
    rw [h2]
    simp [hA, truthyOpt, JSVal.truthy, Json.truthy]
  exact u2.trans h3

theorem resetSettings_timers (s : State) (hs : TimerInv s) :
    TimerInv (resetSettings s) ∧ armedRefreshTimers (resetSettings s) = 1 := by
  have hi : TimerInv (restoreDefaults s) := timerInv_of_same s _ hs rfl rfl rfl
  obtain ⟨h1, h2, _⟩ := applySettings_timers _ hi
  obtain ⟨u1, u2⟩ := updateStatus_timers
    (translate (applySettings (restoreDefaults s)) "settingsReset" "Settings reset") "info" _ h1
  exact ⟨u1, u2.trans h2⟩

theorem timerInv_step (s : State) (op : Op) (hs : TimerInv s) : TimerInv (step s op) := by
  cases op with
  | load =>
    unfold step
    cases h : loadSettings s with
    | ok s1 => exact (loadSettings_timers s s1 hs h).1
    | error e => exact hs
  | save f => exact (saveSettings_timers f s hs).1
  | reset => exact (resetSettings_timers s hs).1

theorem timerInv_run (ops : List Op) (s : State) (hs : TimerInv s) : TimerInv (run s ops) := by
  induction ops generalizing s with
  | nil => exact hs
  | cons op rest ih => exact ih (step s op) (timerInv_step s op hs)

/-- C5: in the editor state after any sequence of `loadSettings`,
`saveSettings` and `resetSettings` calls from construction, a call of
`applySettings` with any settings object leaves exactly one armed
auto-refresh timer when `autoRefresh` is truthy and none when it is not; so
do the calls made by `saveSettings`, by `resetSettings` and by a
`loadSettings` that returns. -/
theorem applySettings_single_timer (st : Storage) (i18n : Option (String → String))
    (ops : List Op) (o : Obj) (f : Form) :
    armedRefreshTimers (applySettings { run (construct st i18n) ops with settings := o })
        = (if truthyOpt (getProp o "autoRefresh") = true then 1 else 0)
      ∧ armedRefreshTimers (saveSettings f (run (construct st i18n) ops))
          = (if f.autoRefresh = true then 1 else 0)
      ∧ armedRefreshTimers (resetSettings (run (construct st i18n) ops)) = 1
      ∧ (match loadSettings (run (construct st i18n) ops) with
          | .ok s1 => armedRefreshTimers s1
              = (if truthyOpt (getProp s1.settings "autoRefresh") = true then 1 else 0)
          | .error _ => True) := by
  have hs : TimerInv (run (construct st i18n) ops) :=
    timerInv_run ops _ (timerInv_construct st i18n)
  refine ⟨?_, (saveSettings_timers f _ hs).2, (resetSettings_timers _ hs).2, ?_⟩
  · have hi : TimerInv { run (construct st i18n) ops with settings := o } :=
      timerInv_of_same _ _ hs rfl rfl rfl
    exact (applySettings_timers _ hi).2.1
  · cases h : loadSettings (run (construct st i18n) ops) with
    | ok s1 => exact (loadSettings_timers _ s1 hs h).2
    | error e => trivial

/-! ## C4: template list fallback -/

theorem renderTemplateSelect_frame (s : State) :
    (renderTemplateSelect s).1.templates = s.templates
      ∧ (renderTemplateSelect s).1.status = s.status
      ∧ (renderTemplateSelect s).1.i18n = s.i18n := by
  unfold renderTemplateSelect
  split
  · exact ⟨rfl, rfl, rfl⟩
  · exact ⟨rfl, rfl, rfl⟩
  · split <;> exact ⟨rfl, rfl, rfl⟩

theorem renderAndReport_i18n (s : State) : (renderAndReport s).1.i18n = s.i18n := by
  unfold renderAndReport
  have h := (renderTemplateSelect_frame s).2.2
  cases hr : (renderTemplateSelect s).2 with
  | some e => simpa [hr] using h
  | none => simpa [hr, updateStatus, setTimer] using h

theorem loadTemplatesTry_i18n (fetched : FetchResult) (s : State) :
    (loadTemplatesTry fetched s).1.i18n = s.i18n := by
  unfold loadTemplatesTry
  split
  · rfl
  · split
    · rfl
    · split
      · rfl
      · split
        · rfl
        · exact renderAndReport_i18n _

theorem loadTemplates_of_throw (fetched : FetchResult) (s : State) (e : JSError)
    (h : (loadTemplatesTry fetched s).2 = some e) :
    usedFallback s (loadTemplates fetched s) := by
  have hi := loadTemplatesTry_i18n fetched s
  unfold loadTemplates
  revert h hi
  cases loadTemplatesTry fetched s with
  | mk s1 r =>
    intro h hi
    simp only at h hi
    subst h
    simp only []
    obtain ⟨f1, f2, _⟩ := renderTemplateSelect_frame
      { updateStatus (templatesErrorText s1) "error" s1 with templates := fallbackTemplates }
    refine ⟨f1, ?_⟩
    rw [f2]
    simp [updateStatus, setTimer, templatesErrorText, translate, hi]

theorem renderOptions_throws (current : String) (items : List Json) (acc : List SelectOption)
    (h : ∃ j ∈ items, ∀ t, j ≠ .str t) :
    ∃ e, (renderOptions current items acc).2 = some e := by
  induction items generalizing acc with
  | nil =>
    obtain ⟨j, hj, _⟩ := h
    cases hj
  | cons x rest ih =>
    cases x with
    | str t =>
      obtain ⟨j, hj, hne⟩ := h
      rcases List.mem_cons.mp hj with rfl | hj
      · exact absurd rfl (hne t)
      · exact ih _ ⟨j, hj, hne⟩
    | null => exact ⟨_, rfl⟩
    | bool b => exact ⟨_, rfl⟩
    | num n => exact ⟨_, rfl⟩
    | arr a => exact ⟨_, rfl⟩
    | obj o => exact ⟨_, rfl⟩

theorem renderAndReport_not_array (s : State) (v : Json) (hv : v.truthy = true)
    (hnotarr : ∀ items, v ≠ .arr items)
    (hlen : ∀ members, v = .obj members → getProp members "length" ≠ some (.num 0)) :
    ∃ e, (renderAndReport { s with templates := v }).2 = some e := by
  cases v with
  | null => simp [Json.truthy] at hv
  | arr items => exact absurd rfl (hnotarr items)
  | bool b => exact ⟨_, rfl⟩
  | num n => exact ⟨_, rfl⟩
  | str t =>
    have ht : t.isEmpty = false := by
      cases hte : t.isEmpty with
      | false => rfl
      | true =>
        have : t = "" := by simpa [String.isEmpty_iff] using hte
        subst this
        simp [Json.truthy] at hv
    exact ⟨.TypeError "this.templates.forEach is not a function",
      by simp [renderAndReport, renderTemplateSelect, lengthIsZero, ht]⟩
  | obj members =>
    have hl := hlen members rfl
    refine ⟨.TypeError "this.templates.forEach is not a function", ?_⟩
    cases hg : getProp members "length" with
    | none => simp [renderAndReport, renderTemplateSelect, lengthIsZero, hg]
    | some w =>
      cases w with
      | num n =>
        have hn : (n == 0) = false := by
          cases hb : (n == 0) with
          | false => rfl
          | true =>
            have : n = 0 := by simpa using hb
            subst this
            exact absurd hg hl
        simp [renderAndReport, renderTemplateSelect, lengthIsZero, hg, hn]
      | null => simp [renderAndReport, renderTemplateSelect, lengthIsZero, hg]
      | bool b => simp [renderAndReport, renderTemplateSelect, lengthIsZero, hg]
      | str t => simp [renderAndReport, renderTemplateSelect, lengthIsZero, hg]
      | arr a => simp [renderAndReport, renderTemplateSelect, lengthIsZero, hg]
      | obj o => simp [renderAndReport, renderTemplateSelect, lengthIsZero, hg]

theorem renderAndReport_bad_item (s : State) (items : List Json)
    (hbad : ∃ j ∈ items, ∀ t, j ≠ .str t) :
    ∃ e, (renderAndReport { s with templates := .arr items }).2 = some e := by
  have hne : items.isEmpty = false := by
    obtain ⟨j, hj, _⟩ := hbad
    cases items with
    | nil => cases hj
    | cons x rest => rfl
  obtain ⟨e1, he1⟩ := renderOptions_throws s.currentTemplate items [] hbad
  exact ⟨e1, by simp [renderAndReport, renderTemplateSelect, lengthIsZero, hne, he1]⟩

theorem loadTemplatesTry_member (s : State) (r : Response) (body : Props Json) (v : Json)
    (hbody : getProp body "templates" = some v) (hv : v.truthy = true) :
    loadTemplatesTry (.resolved { r with ok := true, json := some (.obj body) }) s
      = renderAndReport { s with templates := v } := by
  simp [loadTemplatesTry, Json.getMember, hbody, orEmptyList, hv]

/-- C4 (as amended): the template list falls back to the four built-in
names, with an error status, whenever the request rejects, the response
status is non-success, the body is not valid JSON, the body is JSON `null`,
or the body is an object whose `templates` member is truthy and not a list of
strings: an array holding an item that is not a string, or a value that is
neither an array nor an object with `length` 0. A successful response whose
body is a JSON value other than `null` without a truthy `templates` member is
not a failure: the list is then empty and the status reports 0 templates
loaded. -/
theorem loadTemplates_fallback (s : State) (e : JSError) (r : Response)
    (data : Json) (body other : Props Json) (items : List Json) (v : Json)
    (hdata : data ≠ .null)
    (hm : ∀ w, data.getMember "templates" = .ok (some w) → w.truthy = false)
    (hbody : getProp body "templates" = some (.arr items))
    (hbad : ∃ j ∈ items, ∀ t, j ≠ .str t)
    (hother : getProp other "templates" = some v)
    (hv : v.truthy = true)
    (hnotarr : ∀ xs, v ≠ .arr xs)
    (hlen : ∀ members, v = .obj members → getProp members "length" ≠ some (.num 0)) :
    usedFallback s (loadTemplates (.rejected e) s)
      ∧ usedFallback s (loadTemplates (.resolved { r with ok := false }) s)
      ∧ usedFallback s (loadTemplates (.resolved { r with json := none }) s)
      ∧ usedFallback s (loadTemplates (.resolved { r with json := some .null }) s)
      ∧ usedFallback s (loadTemplates (.resolved { r with json := some (.obj body) }) s)
      ∧ usedFallback s (loadTemplates (.resolved { r with json := some (.obj other) }) s)
      ∧ (loadTemplates (.resolved { r with ok := true, json := some data }) s).templates
          = .arr []
      ∧ (loadTemplates (.resolved { r with ok := true, json := some data }) s).status
          = some { text := "Successfully loaded 0 templates", className := "info" } := by
  obtain ⟨ok, status, statusText, text, json⟩ := r
  have hfail : ∀ j : Option Json, usedFallback s (loadTemplates (.resolved
      { ok := false, status := status, statusText := statusText, text := text, json := j }) s) :=
    fun j => loadTemplates_of_throw _ s
      (.HttpError ("HTTP " ++ toString status ++ ": " ++ statusText)) rfl
  refine ⟨?_, ?_, ?_, ?_, ?_, ?_, ?_⟩
  · exact loadTemplates_of_throw _ s e rfl
  · exact hfail _
  · cases ok with
    | false => exact hfail _
    | true => exact loadTemplates_of_throw _ s (.SyntaxError "Unexpected token in JSON") rfl
  · cases ok with
    | false => exact hfail _
    | true =>
      exact loadTemplates_of_throw _ s
        (.TypeError ("Cannot read properties of null (reading " ++ "templates" ++ ")")) rfl
  · cases ok with
    | false => exact hfail _
    | true =>
      obtain ⟨e1, he1⟩ := renderAndReport_bad_item s items hbad
      have ht := loadTemplatesTry_member s
        { ok := true, status := status, statusText := statusText, text := text, json := json }
        body (.arr items) hbody rfl
      exact loadTemplates_of_throw _ s e1 (by rw [← he1]; exact congrArg Prod.snd ht)
  · cases ok with
    | false => exact hfail _
    | true =>
      obtain ⟨e1, he1⟩ := renderAndReport_not_array s v hv hnotarr hlen
      have ht := loadTemplatesTry_member s
        { ok := true, status := status, statusText := statusText, text := text, json := json }
        other v hother hv
      exact loadTemplates_of_throw _ s e1 (by rw [← he1]; exact congrArg Prod.snd ht)
  · have ho : ∃ member, data.getMember "templates" = .ok member
        ∧ orEmptyList member = .arr [] := by
      cases data with
      | null => exact absurd rfl hdata
      | bool b => exact ⟨none, rfl, rfl⟩
      | num n => exact ⟨none, rfl, rfl⟩
      | str t => exact ⟨none, rfl, rfl⟩
      | arr a => exact ⟨none, rfl, rfl⟩
      | obj m =>
        refine ⟨getProp m "templates", rfl, ?_⟩
        cases hg : getProp m "templates" with
        | none => rfl
        | some w =>
          have := hm w (by simp [Json.getMember, hg])
          simp [orEmptyList, this]
    obtain ⟨member, hmem, hempty⟩ := ho
    constructor
    · simp [loadTemplates, loadTemplatesTry, hmem, hempty, renderAndReport,
        renderTemplateSelect, lengthIsZero, lengthText, updateStatus, setTimer]
    · simp only [loadTemplates, loadTemplatesTry, hmem, hempty, renderAndReport,
        renderTemplateSelect, lengthIsZero, lengthText, updateStatus, setTimer, Bool.not_true,
        Bool.false_eq_true, if_false, List.isEmpty_nil]
      rfl

/-- Witness for C4: the constructed editor, a refused connection, the JSON
body `{}`, a body whose list holds a number beside other members, and a body
whose `templates` member is a string. -/
theorem loadTemplates_fallback_witness :
    Json.obj [] ≠ .null
      ∧ (∀ w, (Json.obj []).getMember "templates" = .ok (some w) → w.truthy = false)
      ∧ getProp [("version", Json.num 2), ("templates", Json.arr [.str "default", .num 1])]
          "templates" = some (.arr [.str "default", .num 1])
      ∧ (∃ j ∈ [Json.str "default", Json.num 1], ∀ t, j ≠ .str t)
      ∧ getProp [("templates", Json.str "default")] "templates" = some (.str "default")
      ∧ usedFallback (construct [] none)
          (loadTemplates (.rejected (.NetworkError "Failed to fetch")) (construct [] none))
      ∧ (loadTemplates emptyObjectResponse (construct [] none)).templates = .arr [] :=
  have h0 : Json.obj [] ≠ .null := fun h => by cases h
  have h1 : ∀ w, (Json.obj []).getMember "templates" = .ok (some w) → w.truthy = false :=
    fun w hw => by cases hw
  have h2 : getProp [("version", Json.num 2), ("templates", Json.arr [.str "default", .num 1])]
      "templates" = some (.arr [.str "default", .num 1]) := rfl
  have h3 : ∃ j ∈ [Json.str "default", Json.num 1], ∀ t, j ≠ .str t :=
    ⟨.num 1, by simp, fun t ht => by cases ht⟩
  have h4 : getProp [("templates", Json.str "default")] "templates" = some (.str "default") :=
    rfl
  have h := loadTemplates_fallback (construct [] none) (.NetworkError "Failed to fetch")
    { ok := true, status := 200, statusText := "OK", text := "{}", json := none } (.obj [])
    [("version", Json.num 2), ("templates", Json.arr [.str "default", .num 1])]
    [("templates", Json.str "default")] [.str "default", .num 1] (.str "default")
    h0 h1 h2 h3 h4 rfl (fun xs hx => by cases hx) (fun members hx => by cases hx)
  ⟨h0, h1, h2, h3, h4, h.1, h.2.2.2.2.2.2.1⟩

/-- C4 as stated fails: a successful response whose body is the JSON object
`{}`, which is not of the form `{ templates: [string] }`, leaves the template
list empty and reports success instead of falling back. -/
theorem loadTemplates_empty_object_no_fallback :
    (loadTemplates emptyObjectResponse (construct [] none)).templates = .arr []
      ∧ (loadTemplates emptyObjectResponse (construct [] none)).status
          = some { text := "Successfully loaded 0 templates", className := "info" }
      ∧ ¬ usedFallback (construct [] none) (loadTemplates emptyObjectResponse (construct [] none)) := by
  refine ⟨rfl, rfl, ?_⟩
  intro h
  have h1 : (loadTemplates emptyObjectResponse (construct [] none)).status
      = some { text := "Successfully loaded 0 templates", className := "info" } := rfl
  rw [h.2] at h1
  revert h1
  decide

/-! ## C6: the record invariant -/

theorem settingsInv_construct (st : Storage) (i18n : Option (String → String))
    (h : blobWellTyped (getItem st settingsKey) = true) : SettingsInv (construct st i18n) :=
  ⟨rfl, rfl, h⟩

theorem settingsInv_of_same (s s1 : State) (h : SettingsInv s)
    (he : s1.apiEndpoint = s.apiEndpoint) (hs : s1.settings = s.settings)
    (ht : s1.storage = s.storage) : SettingsInv s1 := by
  unfold SettingsInv State.record
  rw [he, hs, ht]
  exact h

theorem settingsInv_reset (s : State) : SettingsInv (resetSettings s) := by
  obtain ⟨hE, hS, hK⟩ := resetSettings_fields s
  refine ⟨?_, ?_, ?_⟩
  · simp only [State.record, hE, hS]
    rfl
  · rw [hS]
    rfl
  · rw [hK]
    rfl

theorem settingsInv_save (f : Form) (s : State) (h : SettingsInv s)
    (hf : f.positiveInterval = true) : SettingsInv (saveSettings f s) := by
  obtain ⟨_, hOwn, _⟩ := h
  obtain ⟨f1, f2, _⟩ := saveSettings_fields f s
  obtain ⟨bA, bG, bI, bE⟩ := savedBlob_members f s
  unfold Form.positiveInterval at hf
  cases hp : parseInt f.refreshInterval with
  | nan => simp [hp] at hf
  | infinity negative => simp [hp] at hf
  | negZero => simp [hp] at hf
  | int n =>
    simp only [hp, decide_eq_true_eq] at hf
    refine ⟨?_, ?_, ?_⟩
    · simp only [State.record, Record.wellTyped, f1, f2, savedSettings_get, hp]
      simp [Json.isString, fieldIs, Json.isBoolean, Json.isPositiveInt, ofParseInt, hf]
    · rw [f2, savedSettings_get]
      simpa using hOwn
    · rw [saveSettings_storage]
      simp only [blobWellTyped, bA, bG, bI, bE, hp]
      cases hg : getProp s.settings "apiEndpoint" with
      | none =>
        simp [memberIs, Json.isString, Json.isBoolean, Json.isPositiveInt, ofParseInt,
          JSVal.toJson, hf]
      | some v =>
        rw [hg] at hOwn
        simp only [Option.map_some', memberIs] at hOwn
        simp [memberIs, Json.isBoolean, Json.isPositiveInt, ofParseInt, JSVal.toJson, hf]
        simpa [JSVal.toJson] using hOwn

theorem loadSettings_empty (s : State) (h : getItem s.storage settingsKey = some .empty) :
    loadSettings s = .ok (applySettings s) := by
  simp [loadSettings, loadSettingsFrom, h, Text.truthy]

theorem memberIs_orElse (check : Json → Bool) (a : Option Json) (b : Option JSVal)
    (ha : memberIs check a = true) (hb : fieldIs check b = true) :
    fieldIs check (orElseOpt (a.map ofJson) b) = true := by
  cases a with
  | none => simpa using hb
  | some v => simpa [fieldIs, ofJson, memberIs] using ha

theorem settingsInv_load (s s1 : State) (h : SettingsInv s) (hl : loadSettings s = .ok s1) :
    SettingsInv s1 := by
  obtain ⟨hR, hOwn, hB⟩ := h
  cases hg : getItem s.storage settingsKey with
  | none =>
    rw [loadSettings_absent s hg] at hl
    cases hl
    obtain ⟨a1, a2, a3⟩ := applySettings_frame s
    exact settingsInv_of_same s _ ⟨hR, hOwn, hB⟩ a1 a2 a3
  | some text =>
    cases text with
    | empty =>
      rw [loadSettings_empty s hg] at hl
      cases hl
      obtain ⟨a1, a2, a3⟩ := applySettings_frame s
      exact settingsInv_of_same s _ ⟨hR, hOwn, hB⟩ a1 a2 a3
    | malformed =>
      rw [hg] at hB
      cases hB
    | json v =>
      cases v with
      | obj m =>
        obtain ⟨s2, hl2, l1, l2, l3⟩ := loadSettings_object s m hg
        rw [hl2] at hl
        cases hl
        rw [hg] at hB
        simp only [blobWellTyped, Bool.and_eq_true] at hB
        obtain ⟨⟨⟨bE, bA⟩, bI⟩, bG⟩ := hB
        simp only [State.record, Record.wellTyped, Bool.and_eq_true] at hR
        obtain ⟨⟨⟨_, rA⟩, rI⟩, rG⟩ := hR
        refine ⟨?_, ?_, ?_⟩
        · simp only [State.record, Record.wellTyped, Bool.and_eq_true, l1, l2,
            getProp_assignProps, ownProps_obj_get]
          refine ⟨⟨⟨?_, memberIs_orElse _ _ _ bA rA⟩, memberIs_orElse _ _ _ bI rI⟩,
            memberIs_orElse _ _ _ bG rG⟩
          cases he : getProp m "apiEndpoint" with
          | none => rfl
          | some w =>
            rw [he] at bE
            simp only [orDefaultEndpoint]
            split
            · exact bE
            · rfl
        · rw [l2, getProp_assignProps, ownProps_obj_get]
          cases he : getProp m "apiEndpoint" with
          | none => simpa using hOwn
          | some w =>
            rw [he] at bE
            simpa [ofJson, JSVal.toJson] using bE
        · rw [l3, hg]
          simp only [blobWellTyped, Bool.and_eq_true]
          exact ⟨⟨⟨bE, bA⟩, bI⟩, bG⟩
      | null => rw [hg] at hB; cases hB
      | bool b => rw [hg] at hB; cases hB
      | num n => rw [hg] at hB; cases hB
      | str t => rw [hg] at hB; cases hB
      | arr a => rw [hg] at hB; cases hB

theorem settingsInv_step (s : State) (op : Op) (h : SettingsInv s)
    (hop : op.admissible = true) : SettingsInv (step s op) := by
  cases op with
  | load =>
    unfold step
    cases hl : loadSettings s with
    | ok s1 => exact settingsInv_load s s1 h hl
    | error e => exact h
  | save f => exact settingsInv_save f s h hop
  | reset => exact settingsInv_reset s

theorem settingsInv_run (ops : List Op) (s : State) (h : SettingsInv s)
    (hops : ∀ op ∈ ops, op.admissible = true) : SettingsInv (run s ops) := by
  induction ops generalizing s with
  | nil => exact h
  | cons op rest ih =>
    exact ih (step s op) (settingsInv_step s op h (hops op (List.mem_cons_self _ _)))
      (fun o ho => hops o (List.mem_cons_of_mem _ ho))

/-- C6 (as amended): in every state reachable from construction through
`loadSettings`, `saveSettings` and `resetSettings`, provided the settings
text found in storage at construction is absent, empty or a JSON object with
well-typed members, and every saved interval text is read by `parseInt` as a
finite number greater than 0 (not NaN, not Infinity), the settings record is
complete and well typed:
apiEndpoint is a string, autoRefresh and showGrid are booleans, and
refreshInterval is an integer strictly greater than 0. -/
theorem record_wellTyped (st : Storage) (i18n : Option (String → String)) (ops : List Op)
    (hst : blobWellTyped (getItem st settingsKey) = true)
    (hops : ∀ op ∈ ops, op.admissible = true) :
    (run (construct st i18n) ops).record.wellTyped = true :=
  (settingsInv_run ops _ (settingsInv_construct st i18n hst) hops).1

/-- Witness for C6: a session on empty storage that loads, saves a filled-in
form, loads again and resets. -/
theorem record_wellTyped_witness :
    blobWellTyped (getItem [] settingsKey) = true
      ∧ (∀ op ∈ [Op.load, Op.save sampleForm, Op.load, Op.reset], op.admissible = true)
      ∧ (run (construct [] none) [Op.load, Op.save sampleForm, Op.load, Op.reset]).record.wellTyped
          = true :=
  have h2 : ∀ op ∈ [Op.load, Op.save sampleForm, Op.load, Op.reset], op.admissible = true := by
    intro op hop
    simp only [List.mem_cons, List.mem_singleton, List.not_mem_nil, or_false] at hop
    rcases hop with rfl | rfl | rfl | rfl
    · rfl
    · decide
    · rfl
    · rfl
  ⟨rfl, h2, record_wellTyped [] none _ rfl h2⟩

/-- C6 as stated fails: saving the interval text "0" on the editor of a first
page session leaves refreshInterval equal to 0, which is not greater than
0. -/
theorem record_not_wellTyped_after_zero_interval :
    (saveSettings zeroIntervalForm freshEditor).record.refreshInterval = some (.json (.num 0))
      ∧ (saveSettings zeroIntervalForm freshEditor).record.wellTyped = false :=
  ⟨rfl, rfl⟩

/-! ## C7: saving a custom template -/

/-- Saving a custom template under a non-empty name other than `__proto__`:
for every existing map `M` (or no stored map, then the empty one) the stored
map afterwards reads the editor markup at that name and agrees with `M` at
every other name; so a second save under the same name overwrites the first.
A cancelled prompt or an empty name leaves the state as it was. -/
theorem saveTemplate_overwrites (s : State) (name : String) (M : Props Json)
    (hM : customTemplates s = some M) (hne : name ≠ "") (hproto : name ≠ "__proto__") :
    (∃ s1 M1, saveTemplate (some name) s = .ok s1 ∧ customTemplates s1 = some M1
        ∧ ∀ key, getProp M1 key = if name = key then some (.str s.svgEditor) else getProp M key)
      ∧ saveTemplate none s = .ok s ∧ saveTemplate (some "") s = .ok s := by
  refine ⟨?_, rfl, rfl⟩
  have hparse : JSON.parse (orEmptyObject (getItem s.storage templatesKey)) = .ok (.obj M) := by
    unfold customTemplates at hM
    cases hg : getItem s.storage templatesKey with
    | none =>
      rw [hg] at hM
      cases hM
      rfl
    | some t =>
      rw [hg] at hM
      cases t with
      | empty => cases hM
      | malformed => cases hM
      | json v =>
        cases v with
        | obj m =>
          cases hM
          rfl
        | null => cases hM
        | bool b => cases hM
        | num n => cases hM
        | str t => cases hM
        | arr a => cases hM
  refine ⟨updateStatus ("Template \"" ++ name ++ "\" saved") "info"
      { s with storage := setItem s.storage templatesKey (.json (.obj (setProp M name
        (.str s.svgEditor)))) }, setProp M name (.str s.svgEditor), ?_, ?_, ?_⟩
  · simp [saveTemplate, hne, hparse, assignMember, hproto]
  · simp [customTemplates, updateStatus, setTimer, getItem_setItem]
  · intro key
    exact getProp_setProp M name key _

/-- C7 fails on the code for the name `__proto__`: with no custom template
stored, saving the editor markup under that name returns, reports the
template as saved, and stores the empty map, in which the name has no
entry. -/
theorem saveTemplate_proto_not_saved :
    ∃ s1, saveTemplate (some "__proto__") editingState = .ok s1
      ∧ customTemplates s1 = some []
      ∧ getProp ([] : Props Json) "__proto__" = none
      ∧ s1.status = some { text := "Template \"__proto__\" saved", className := "info" } :=
  ⟨_, rfl, rfl, rfl, rfl⟩

/-! ## C8: preview failure -/

/-- When the preview request is rejected, `updatePreview` shows the inline
error block holding the error message, sets an error status, and arms no
refresh timer. -/
theorem updatePreview_rejected (s : State) (e : JSError) (querySvg : String → Option Element) :
    (updatePreview (.rejected e) querySvg s).preview = .html (previewErrorBlock e.message)
      ∧ (updatePreview (.rejected e) querySvg s).status
          = some { text := "Preview update failed", className := "error" }
      ∧ armedRefreshTimers (updatePreview (.rejected e) querySvg s) = armedRefreshTimers s := by
  simp [updatePreview, updateStatus, setTimer, armedRefreshTimers, List.filter_append,
    Timer.isRefresh]

/-- C8 fails on the code for a non-success status: for every response, also
one with `ok` false, in whose body no `svg` element is found, `updatePreview`
shows the body text as the preview and reports "Preview updated"; so it does
for the status 500 response with body "Internal Server Error". -/
theorem updatePreview_shows_failed_body :
    (∀ (s : State) (r : Response), (updatePreview (.resolved r) noSvg s).preview = .html r.text
        ∧ (updatePreview (.resolved r) noSvg s).status
            = some { text := "Preview updated", className := "info" })
      ∧ (updatePreview serverErrorResponse noSvg editingState).preview
          = .html "Internal Server Error"
      ∧ (updatePreview serverErrorResponse noSvg editingState).status
          = some { text := "Preview updated", className := "info" } := by
  refine ⟨?_, rfl, rfl⟩
  intro s r
  simp [updatePreview, noSvg, updateStatus, setTimer]

/-! ## C9: loadSettings and errors -/

theorem loadSettingsRun_agrees (read : Except JSError (Option Text)) (s : State) :
    asExcept (loadSettingsRun read s) = loadSettingsFrom read s := by
  cases read with
  | error e => rfl
  | ok saved =>
    cases saved with
    | none => rfl
    | some text =>
      cases text with
      | empty => rfl
      | malformed => rfl
      | json v =>
        cases v with
        | null => rfl
        | bool b => rfl
        | num n => rfl
        | str t => rfl
        | arr a => rfl
        | obj m => rfl

/-- C9 (as amended): `loadSettings` returns when the key is absent, holds the
empty text, or holds valid JSON other than `null`. It raises a SyntaxError on
text that is not valid JSON, a TypeError on the JSON text `null`, and the
error of the storage read when that read fails. When it raises it has
assigned no field and has not run `applySettings`: the editor is left as it
was, so at construction it still holds the default record, with no
auto-refresh timer armed. -/
theorem loadSettings_outcomes (s : State) (st : Storage) (i18n : Option (String → String))
    (read : Except JSError (Option Text)) (e : JSError) (v : Json) (hv : v ≠ .null) :
    asExcept (loadSettingsRun read s) = loadSettingsFrom read s
      ∧ loadSettingsFrom (.ok none) s = .ok (applySettings s)
      ∧ loadSettingsFrom (.ok (some .empty)) s = .ok (applySettings s)
      ∧ (∃ s1, loadSettingsFrom (.ok (some (.json v))) s = .ok s1)
      ∧ (∃ msg, loadSettingsFrom (.ok (some .malformed)) s = .error (.SyntaxError msg)
          ∧ loadSettingsRun (.ok (some .malformed)) s = (s, some (.SyntaxError msg)))
      ∧ (∃ msg, loadSettingsFrom (.ok (some (.json .null))) s = .error (.TypeError msg)
          ∧ loadSettingsRun (.ok (some (.json .null))) s = (s, some (.TypeError msg)))
      ∧ loadSettingsFrom (.error e) s = .error e
      ∧ loadSettingsRun (.error e) s = (s, some e)
      ∧ (loadSettingsRun (.error e) (construct st i18n)).1.record = defaultRecord
      ∧ (loadSettingsRun (.ok (some .malformed)) (construct st i18n)).1.record = defaultRecord
      ∧ (loadSettingsRun (.ok (some (.json .null))) (construct st i18n)).1.record = defaultRecord
      ∧ armedRefreshTimers (loadSettingsRun (.error e) (construct st i18n)).1 = 0
      ∧ armedRefreshTimers (loadSettingsRun (.ok (some .malformed)) (construct st i18n)).1 = 0 := by
  refine ⟨loadSettingsRun_agrees read s, rfl, rfl, ?_, ⟨_, rfl, rfl⟩, ⟨_, rfl, rfl⟩, rfl, rfl,
    rfl, rfl, rfl, rfl, rfl⟩
  cases v with
  | null => exact absurd rfl hv
  | bool b => exact ⟨_, rfl⟩
  | num n => exact ⟨_, rfl⟩
  | str t => exact ⟨_, rfl⟩
  | arr a => exact ⟨_, rfl⟩
  | obj m => exact ⟨_, rfl⟩

/-- Witness for C9: the constructed editor and the JSON text `{}`. -/
theorem loadSettings_outcomes_witness :
    Json.obj [] ≠ .null
      ∧ ∃ s1, loadSettingsFrom (.ok (some (.json (.obj [])))) (construct [] none) = .ok s1 :=
  have h : Json.obj [] ≠ .null := fun h => by cases h
  ⟨h, (loadSettings_outcomes (construct [] none) [] none (.ok none) (.SecurityError "denied")
    (.obj []) h).2.2.2.1⟩

/-- C9 as stated fails: with a settings text that is not valid JSON,
`loadSettings` raises a SyntaxError; and when the storage read raises,
`loadSettings` raises that error instead of staying silent. -/
theorem loadSettings_raises :
    loadSettings (construct malformedStorage none)
        = .error (.SyntaxError "Unexpected token in JSON")
      ∧ loadSettingsFrom (.error (.SecurityError "The operation is insecure."))
          (construct [] none) = .error (.SecurityError "The operation is insecure.") :=
  ⟨rfl, rfl⟩

/-! ## C10: merging the persisted blob over the defaults -/

/-- C10 (as amended): starting from the freshly constructed editor, for every
persisted JSON object, after `loadSettings` each of autoRefresh,
refreshInterval and showGrid equals the persisted value when the blob has
that member and its default when it does not; apiEndpoint equals the
persisted value when the blob has a truthy one and the default endpoint
otherwise; when nothing is persisted the record is the default record. -/
theorem loadSettings_merges (st : Storage) (i18n : Option (String → String)) (m : Props Json) :
    (∃ s1, loadSettings (construct (setItem st settingsKey (.json (.obj m))) i18n) = .ok s1
        ∧ s1.record.apiEndpoint
            = (match getProp m "apiEndpoint" with
                | some v => if v.truthy = true then v else .str "http://localhost:8000"
                | none => .str "http://localhost:8000")
        ∧ s1.record.autoRefresh = mergedField m "autoRefresh" (.bool true)
        ∧ s1.record.refreshInterval = mergedField m "refreshInterval" (.num 5)
        ∧ s1.record.showGrid = mergedField m "showGrid" (.bool false))
      ∧ ∃ s0, loadSettings (construct (removeItem st settingsKey) i18n) = .ok s0
          ∧ s0.record = defaultRecord := by
  constructor
  · obtain ⟨s1, hl, l1, l2, _⟩ := loadSettings_object
      (construct (setItem st settingsKey (.json (.obj m))) i18n) m (getItem_setItem _ _ _)
    refine ⟨s1, hl, ?_, ?_, ?_, ?_⟩
    · simp only [State.record, l1, orDefaultEndpoint]
      cases getProp m "apiEndpoint" <;> rfl
    · simp only [State.record, l2, getProp_assignProps, ownProps_obj_get, mergedField]
      cases getProp m "autoRefresh" <;> rfl
    · simp only [State.record, l2, getProp_assignProps, ownProps_obj_get, mergedField]
      cases getProp m "refreshInterval" <;> rfl
    · simp only [State.record, l2, getProp_assignProps, ownProps_obj_get, mergedField]
      cases getProp m "showGrid" <;> rfl
  · refine ⟨_, loadSettings_absent _ (getItem_removeItem st settingsKey), ?_⟩
    obtain ⟨a1, a2, _⟩ := applySettings_frame (construct (removeItem st settingsKey) i18n)
    simp only [State.record, a1, a2]
    rfl

/-- C10 as stated fails: when the persisted blob has the member apiEndpoint
with the empty string as its value, `loadSettings` on the fresh editor sets
apiEndpoint to the default endpoint, not to the persisted value. -/
theorem loadSettings_empty_endpoint_defaulted :
    getItem emptyEndpointStorage settingsKey
        = some (.json (.obj [("apiEndpoint", .str ""), ("autoRefresh", .bool true),
            ("refreshInterval", .num 5), ("showGrid", .bool false)]))
      ∧ ∃ s1, loadSettings (construct emptyEndpointStorage none) = .ok s1
          ∧ s1.record.apiEndpoint = .str "http://localhost:8000"
          ∧ s1.record.apiEndpoint ≠ .str "" := by
  refine ⟨rfl, _, rfl, rfl, ?_⟩
  show Json.str "http://localhost:8000" ≠ Json.str ""
  simp

/-! ## C11: export -/

/-- C11: for every current template identifier, `exportSvg` offers exactly
one download, named "now-playing-" followed by the identifier followed by
".svg" (so "now-playing-modern-card.svg" for "modern-card"), whose content is
the markup of the displayed preview as `innerHTML` gives it: the markup of the
appended `svg` element when the preview holds one, the serialisation of the
parsed text when a text was assigned (`a &amp; b` after `a & b` was applied).
It issues no network request and leaves currentTemplate, the endpoint, the
settings, the storage and the preview as they were. -/
theorem exportSvg_download (serialize : String → String) (s : State) (markup : String)
    (e : Element) :
    (exportSvg serialize { s with preview := .child e }).1
        = [.download { filename := "now-playing-" ++ s.currentTemplate ++ ".svg",
                       mimeType := "image/svg+xml", content := e.outerHTML }]
      ∧ (exportSvg serialize { s with preview := .html markup }).1
          = [.download { filename := "now-playing-" ++ s.currentTemplate ++ ".svg",
                         mimeType := "image/svg+xml", content := serialize markup }]
      ∧ (∃ file, (exportSvg serialize s).1 = [.download file]
          ∧ file.filename = "now-playing-" ++ s.currentTemplate ++ ".svg")
      ∧ (exportSvg serialize s).1.any Effect.isFetch = false
      ∧ (exportSvg serialize s).2.currentTemplate = s.currentTemplate
      ∧ (exportSvg serialize s).2.apiEndpoint = s.apiEndpoint
      ∧ (exportSvg serialize s).2.settings = s.settings
      ∧ (exportSvg serialize s).2.storage = s.storage
      ∧ (exportSvg serialize s).2.preview = s.preview
      ∧ (exportSvg serialize modernCardState).1
          = [.download { filename := "now-playing-modern-card.svg",
                         mimeType := "image/svg+xml", content := "<svg></svg>" }]
      ∧ (exportSvg escapeText (applyCustomSvg noSvg ampersandState)).1
          = [.download { filename := "now-playing-default.svg",
                         mimeType := "image/svg+xml", content := "a &amp; b" }] := by
  refine ⟨rfl, rfl, ⟨_, rfl, rfl⟩, rfl, ?_, ?_, ?_, ?_, ?_, rfl, ?_⟩
  · simp [exportSvg, updateStatus, setTimer]
  · simp [exportSvg, updateStatus, setTimer]
  · simp [exportSvg, updateStatus, setTimer]
  · simp [exportSvg, updateStatus, setTimer]
  · simp [exportSvg, updateStatus, setTimer]
  · decide

/-! ## C12: applying edited markup -/

/-- C12 (as amended): with markup parsing given as a function from text to an
optional first `svg` element, for every editor text in which no `svg` element
is found `applyCustomSvg` assigns the input text, unchanged, to `innerHTML` of
the preview container and reports it as applied, without an error; the
preview then holds what the browser parses from the text and reads back as
the serialisation of that, not as the text itself. For every text in which an
`svg` element is found the preview holds only that element. -/
theorem applyCustomSvg_preview (s : State) (querySvg : String → Option Element)
    (serialize : String → String) (svgElement : Element) :
    (querySvg s.svgEditor = none →
        (applyCustomSvg querySvg s).preview = .html s.svgEditor
          ∧ (applyCustomSvg querySvg s).preview.innerHTML serialize = serialize s.svgEditor
          ∧ (applyCustomSvg querySvg s).status
              = some { text := "Custom SVG applied", className := "info" })
      ∧ (querySvg s.svgEditor = some svgElement →
          (applyCustomSvg querySvg s).preview = .child svgElement
            ∧ (applyCustomSvg querySvg s).preview.innerHTML serialize = svgElement.outerHTML
            ∧ (applyCustomSvg querySvg s).status
                = some { text := "Custom SVG applied", className := "info" }) := by
  constructor
  · intro h
    simp [applyCustomSvg, applyCustomSvgTry, h, updateStatus, setTimer, Preview.innerHTML]
  · intro h
    simp [applyCustomSvg, applyCustomSvgTry, h, updateStatus, setTimer, Preview.innerHTML]

/-- Witness for C12: a text without markup, in which no element is found,
and the text `<svg></svg>`, in which one is. -/
theorem applyCustomSvg_preview_witness :
    onlyPlainSvg plainTextState.svgEditor = none
      ∧ (applyCustomSvg onlyPlainSvg plainTextState).preview = .html "hello, world"
      ∧ onlyPlainSvg editingState.svgEditor = some { outerHTML := "<svg></svg>" }
      ∧ (applyCustomSvg onlyPlainSvg editingState).preview
          = .child { outerHTML := "<svg></svg>" } :=
  have h1 : onlyPlainSvg plainTextState.svgEditor = none := by decide
  have h2 : onlyPlainSvg editingState.svgEditor = some { outerHTML := "<svg></svg>" } := by
    decide
  ⟨h1,
    ((applyCustomSvg_preview plainTextState onlyPlainSvg escapeText { outerHTML := "" }).1 h1).1,
    h2,
    ((applyCustomSvg_preview editingState onlyPlainSvg escapeText
      { outerHTML := "<svg></svg>" }).2 h2).1⟩

/-- C12 as stated fails: for the editor text `a & b`, in which no `svg`
element is found, the content of the preview after `applyCustomSvg` reads
back as `a &amp; b`, not as the input text unchanged. -/
theorem applyCustomSvg_content_not_literal :
    noSvg ampersandState.svgEditor = none
      ∧ ampersandState.svgEditor = "a & b"
      ∧ (applyCustomSvg noSvg ampersandState).preview.innerHTML escapeText = "a &amp; b"
      ∧ (applyCustomSvg noSvg ampersandState).preview.innerHTML escapeText
          ≠ ampersandState.svgEditor := by
  refine ⟨rfl, rfl, ?_, ?_⟩ <;> decide

end NowPlaying
